import Mathlib

/-!
The `rskid` wrapper: configuration store, option parser, command builders and dispatcher.

A shallow embedding of `src/main.c` (the `rskid` Rust CLI wrapper).

Modelling conventions

* A C string (NUL-terminated `char` array) is a Lean `String`; every `Char` stands for one
  byte and the strings are taken to be NUL-free, so `strlen` is `String.length`.
* `strcpy` is a plain copy: writing past the end of a destination array is undefined
  behaviour in C and is not modelled; the capacities of the arrays appear as the
  constants `MAX_*` and as explicit length conditions in the statements. The copies that
  an input can overrun are those of `parse_arguments` (into `file`, `config_path`,
  `command`) and those of `load_config` (into `default_env`, and into `current_section`).
* `compile_rust_file` cuts the extension by a write through the pointer that `basename`
  returns. For the empty path that pointer is to a string constant, the write is
  undefined behaviour and the process dies there (main.c 665), before anything else of
  `compile_rust_file` happens: `compile_rust_file_returns` tells the two cases apart.
  `compile_rust_file`, `main_dispatch` and `main` give what the source does when it gets
  past that line, and a statement that depends on it carries the condition that the
  path is not empty.
* `int` flags of `Config` and `Options` only ever hold `0` or `1` (they are zero-initialised
  and assigned the literals `0`/`1` or the result of `parse_boolean`), so they are `Bool`.
* Everything the program does to the outside world is recorded, in order, as a list of
  `Event`s; what the outside world answers (exit statuses, file contents, the
  user's reply) is given by an `Env` whose answers may depend on the events so far.
-/

namespace Rskid

/-! ## Constants (main.c lines 9-14) -/

def MAX_PATH_LEN : Nat := 1024
def MAX_CMD_LEN : Nat := 2048
def MAX_LINE_LEN : Nat := 512
def MAX_SECTION_LEN : Nat := 64
def MAX_KEY_LEN : Nat := 128
def MAX_VALUE_LEN : Nat := 512

/-! ## libc string helpers -/

/-- Sign of the lexicographic byte comparison of two character lists. -/
def strcmp_aux : List Char → List Char → Int
  | [], [] => 0
  | [], _ :: _ => -1
  | _ :: _, [] => 1
  | a :: as, b :: bs =>
    if a = b then strcmp_aux as bs else if a.toNat < b.toNat then -1 else 1

/-- C `strcmp`: zero exactly when the two strings are equal (only the sign of a
non-zero result is specified by the C standard; the model returns -1 or 1). -/
def strcmp (a b : String) : Int := strcmp_aux a.data b.data

/-- C `strchr(s, c)` followed by `*p = 0`: the text before the first occurrence of `c`
and the text after it, or `none` when `c` does not occur. -/
def strchr_split (c : Char) : List Char → Option (List Char × List Char)
  | [] => none
  | x :: xs =>
    if x = c then some ([], xs)
    else match strchr_split c xs with
      | some (before, after) => some (x :: before, after)
      | none => none

/-- C `snprintf(buf, size, ...)` where the formatted text is `s`: the buffer receives at
most `size - 1` characters of `s`, the return value is the full length of `s`. -/
def snprintf (size : Nat) (s : String) : String × Nat :=
  (String.mk (s.data.take (size - 1)), s.length)

/-! ## Utility functions (main.c lines 105-124) -/

/-- The four characters `trim_whitespace` treats as white space. -/
def is_space (c : Char) : Bool :=
  c = ' ' || c = '\t' || c = '\n' || c = '\r'

/-- The second loop of `trim_whitespace`: starting at the last character, erase white
space while `end > str`; the argument is the text after `str[0]`, which is never erased. -/
def trim_end (rest : List Char) : List Char :=
  (rest.reverse.dropWhile is_space).reverse

/-- Embedding of `trim_whitespace` on character lists: skip the leading white space,
move the rest to the front, then erase trailing white space down to (not including)
the first character. -/
def trim_chars (str : List Char) : List Char :=
  match str.dropWhile is_space with
  | [] => []
  | c :: rest => c :: trim_end rest

/-- Embedding of `trim_whitespace` (main.c 105-120). -/
def trim_whitespace (str : String) : String := String.mk (trim_chars str.data)

/-- Embedding of `parse_boolean` (main.c 122-124). -/
def parse_boolean (value : String) : Bool :=
  strcmp value "true" == 0 || strcmp value "1" == 0 || strcmp value "yes" == 0

/-! ## Data model (main.c lines 17-82) -/

/-- The `Config` record. -/
structure Config where
  experimental : Bool
  flags : String
  target : String
  custom_path : String
  default_env : String
  dev_flags : String
  prod_flags : String
  test_flags : String
  pre_build : String
  post_build : String
  pre_test : String
  post_test : String
  run_clippy : Bool
  clippy_flags : String
  auto_format : Bool
  formatter : String
  formatter_flags : String
  output_dir : String
  overwrite : Bool
  skip_existing : Bool
  save_backup : Bool
  name : String
  version : String
  author : String
  description : String
  enable_experimental : Bool
  enable_logging : Bool
  run_on_save : Bool
  deriving DecidableEq, Repr

/-- The zero-initialised global `Config g_config = {0}` (main.c 64). -/
def g_config_zero : Config :=
  { experimental := false, flags := "", target := "", custom_path := "",
    default_env := "", dev_flags := "", prod_flags := "", test_flags := "",
    pre_build := "", post_build := "", pre_test := "", post_test := "",
    run_clippy := false, clippy_flags := "",
    auto_format := false, formatter := "", formatter_flags := "",
    output_dir := "", overwrite := false, skip_existing := false, save_backup := false,
    name := "", version := "", author := "", description := "",
    enable_experimental := false, enable_logging := false, run_on_save := false }

/-- The `Options` record. -/
structure Options where
  file : String
  run_after : Bool
  release_mode : Bool
  skip_compilation : Bool
  save_binary : Bool
  auto_yes : Bool
  verbose : Bool
  very_verbose : Bool
  use_config : Bool
  config_path : String
  lint : Bool
  format : Bool
  env_mode : String
  command : String
  deriving DecidableEq, Repr

/-- The options record as `main` sets it up before parsing (main.c 875-877):
zero-initialised, then `env_mode = "dev"` and `command = "run"`. -/
def main_initial_options : Options :=
  { file := "", run_after := false, release_mode := false, skip_compilation := false,
    save_binary := false, auto_yes := false, verbose := false, very_verbose := false,
    use_config := false, config_path := "", lint := false, format := false,
    env_mode := "dev", command := "run" }

/-! ## Config store (main.c lines 415-644) -/

/-- Embedding of `init_default_config` (main.c 415-443): one assignment per line of the
source, in the source's order. The field `clippy_flags` is not assigned there. -/
def init_default_config (config : Config) : Config :=
  { config with
    experimental := false
    flags := "-C opt-level=3"
    target := "x86_64-unknown-linux-gnu"
    custom_path := "rustc"
    default_env := "dev"
    dev_flags := ""
    prod_flags := "--release"
    test_flags := "--all-targets"
    pre_build := "echo \"Preparing build...\""
    post_build := "echo \"Build finished successfully!\""
    pre_test := "echo \"Running tests...\""
    post_test := "echo \"All tests done!\""
    run_clippy := true
    auto_format := true
    formatter := "rustfmt"
    formatter_flags := "--edition 2021"
    output_dir := "./bin"
    overwrite := false
    skip_existing := false
    save_backup := true
    name := "MyRustApp"
    version := "0.1.0"
    author := "User <user@example.com>"
    description := "A sample Rust project using rskid"
    enable_experimental := false
    enable_logging := true
    run_on_save := false }

/-- The rule line of the file header (main.c 452 and 454): 61 characters `=` and a
newline. -/
def rule_line : String := String.mk (List.replicate 61 '=' ++ ['\n'])

/-- The text `create_default_config` writes (main.c 452-522), one `fprintf` per line. -/
def default_config_lines : List String :=
  [ rule_line,
    "                      rskid Configuration\n",
    rule_line,
    "[compiler]\n",
    "# Use experimental compiler (rustcc) if true\n",
    "experimental=false\n",
    "# Additional flags for rustc/rustcc\n",
    "flags=-C opt-level=3\n",
    "# Compilation target (optional)\n",
    "target=x86_64-unknown-linux-gnu\n",
    "# Custom path to rustc/rustcc (optional)\n",
    "custom_path=rustc\n\n",
    "[env]\n",
    "# Default environment mode\n",
    "default_env=dev\n",
    "# Flags for dev build\n",
    "dev_flags=\n",
    "# Flags for production build\n",
    "prod_flags=--release\n",
    "# Flags for tests\n",
    "test_flags=--all-targets\n\n",
    "[custom]\n",
    "# Commands executed before build\n",
    "pre_build=echo \"Preparing build...\"\n",
    "# Commands executed after build\n",
    "post_build=echo \"Build finished successfully!\"\n",
    "# Commands before tests (optional)\n",
    "pre_test=echo \"Running tests...\"\n",
    "# Commands after tests (optional)\n",
    "post_test=echo \"All tests done!\"\n\n",
    "[lint]\n",
    "# Enable clippy\n",
    "run_clippy=true\n",
    "# Custom clippy flags\n",
    "clippy_flags=--deny warnings\n\n",
    "[fmt]\n",
    "# Automatically format code\n",
    "auto_format=true\n",
    "# Formatter executable\n",
    "formatter=rustfmt\n",
    "# Formatter flags\n",
    "formatter_flags=--edition 2021\n\n",
    "[binary]\n",
    "# Directory to save compiled binaries\n",
    "output_dir=./bin\n",
    "# Automatically overwrite binaries\n",
    "overwrite=false\n",
    "# Skip compilation if binary exists\n",
    "skip_existing=false\n",
    "# Save old binary as backup\n",
    "save_backup=true\n\n",
    "[project]\n",
    "# Project metadata\n",
    "name=MyRustApp\n",
    "version=0.1.0\n",
    "author=User <user@example.com>\n",
    "description=A sample Rust project using rskid\n\n",
    "[features]\n",
    "# Enable experimental compiler features at runtime\n",
    "enable_experimental=false\n",
    "# Enable verbose logging\n",
    "enable_logging=true\n",
    "# Automatically run binary after build/save\n",
    "run_on_save=false\n" ]

/-- The whole file written by `create_default_config`. -/
def default_config_text : String :=
  String.mk (default_config_lines.map String.data).flatten

/-- The `while (fgets(line, size, file))` reads of `load_config`: the file content cut
into the successive buffers `fgets` returns. Each read stops after a newline or after
`size - 1` characters, whichever comes first. `room` is the number of characters
the current read may still take, `cur` the characters it has taken (reversed). -/
def fgets_lines (size : Nat) : Nat → List Char → List Char → List (List Char)
  | _, cur, [] => if cur.isEmpty then [] else [cur.reverse]
  | room, cur, c :: cs =>
    if c = '\n' ∨ room ≤ 1 then (c :: cur).reverse :: fgets_lines size (size - 1) [] cs
    else fgets_lines size (room - 1) (c :: cur) cs

/-- The section/key dispatch of `load_config` (main.c 566-638): the assignment made for
one `key=value` pair under the current section. Each string assignment is a `strcpy`
into the field's array; it is the plain copy given here when the value is shorter than
the array. A value comes from a line of at most `MAX_LINE_LEN - 1` characters, which
every array holds except `default_env[32]`: there a value of 32 characters or more runs
over the end of the array, into `dev_flags`. -/
def load_config_assign (current_section key value : String) (config : Config) : Config :=
  if strcmp current_section "compiler" = 0 then
    if strcmp key "experimental" = 0 then { config with experimental := parse_boolean value }
    else if strcmp key "flags" = 0 then { config with flags := value }
    else if strcmp key "target" = 0 then { config with target := value }
    else if strcmp key "custom_path" = 0 then { config with custom_path := value }
    else config
  else if strcmp current_section "env" = 0 then
    if strcmp key "default_env" = 0 then { config with default_env := value }
    else if strcmp key "dev_flags" = 0 then { config with dev_flags := value }
    else if strcmp key "prod_flags" = 0 then { config with prod_flags := value }
    else if strcmp key "test_flags" = 0 then { config with test_flags := value }
    else config
  else if strcmp current_section "custom" = 0 then
    if strcmp key "pre_build" = 0 then { config with pre_build := value }
    else if strcmp key "post_build" = 0 then { config with post_build := value }
    else if strcmp key "pre_test" = 0 then { config with pre_test := value }
    else if strcmp key "post_test" = 0 then { config with post_test := value }
    else config
  else if strcmp current_section "lint" = 0 then
    if strcmp key "run_clippy" = 0 then { config with run_clippy := parse_boolean value }
    else if strcmp key "clippy_flags" = 0 then { config with clippy_flags := value }
    else config
  else if strcmp current_section "fmt" = 0 then
    if strcmp key "auto_format" = 0 then { config with auto_format := parse_boolean value }
    else if strcmp key "formatter" = 0 then { config with formatter := value }
    else if strcmp key "formatter_flags" = 0 then { config with formatter_flags := value }
    else config
  else if strcmp current_section "binary" = 0 then
    if strcmp key "output_dir" = 0 then { config with output_dir := value }
    else if strcmp key "overwrite" = 0 then { config with overwrite := parse_boolean value }
    else if strcmp key "skip_existing" = 0 then
      { config with skip_existing := parse_boolean value }
    else if strcmp key "save_backup" = 0 then { config with save_backup := parse_boolean value }
    else config
  else if strcmp current_section "project" = 0 then
    if strcmp key "name" = 0 then { config with name := value }
    else if strcmp key "version" = 0 then { config with version := value }
    else if strcmp key "author" = 0 then { config with author := value }
    else if strcmp key "description" = 0 then { config with description := value }
    else config
  else if strcmp current_section "features" = 0 then
    if strcmp key "enable_experimental" = 0 then
      { config with enable_experimental := parse_boolean value }
    else if strcmp key "enable_logging" = 0 then
      { config with enable_logging := parse_boolean value }
    else if strcmp key "run_on_save" = 0 then { config with run_on_save := parse_boolean value }
    else config
  else config

/-- One iteration of the loop of `load_config` (main.c 539-639) on the buffer `line`
read by `fgets`; the state is the current section and the configuration. -/
def load_config_line (st : String × Config) (line : List Char) : String × Config :=
  match trim_chars line with
  | [] => st
  | c :: rest =>
    if c = '#' then st
    else if c = '[' then
      match strchr_split ']' (c :: rest) with
      | some (before, _) => (String.mk (before.drop 1), st.2)
      | none => st
    else
      match strchr_split '=' (c :: rest) with
      | some (key, value) =>
        (st.1, load_config_assign st.1 (String.mk (trim_chars key))
          (String.mk (trim_chars value)) st.2)
      | none => st

/-- The loop of `load_config` (main.c 535-640) over the content of an opened file,
starting with `current_section = ""`. -/
def load_config_text (content : String) (config : Config) : Config :=
  ((fgets_lines MAX_LINE_LEN (MAX_LINE_LEN - 1) [] content.data).foldl
    load_config_line ("", config)).2

/-! ## The outside world -/

/-- What the program does to the outside world, in program order. -/
inductive Event where
  /-- Text written to standard output by `printf`. -/
  | out (text : String)
  /-- Text written to the error stream by `fprintf(stderr, ...)`. -/
  | err (text : String)
  /-- An external command is spawned by `system(cmd)`. -/
  | exec (cmd : String)
  /-- The file `path` is created with the given `content`. -/
  | write (path : String) (content : String)
  /-- The help text is written to standard output: by `print_help()` for `none`, by
  `print_command_help(command)` for `some command`. The text itself is not modelled. -/
  | help (command : Option String)
  deriving DecidableEq, Repr

/-- The answers of the outside world; each may depend on the events so far. -/
structure Env where
  /-- The value `system(cmd)` returns. -/
  system : List Event → String → Int
  /-- Whether `access(path, F_OK) == 0`. -/
  access : List Event → String → Bool
  /-- The content read after `fopen(path, "r")`; `none` when the file cannot be opened. -/
  fopen_read : List Event → String → Option String
  /-- The outcome of `fopen(path, "w")`: `none` on success, else the text of `strerror(errno)`. -/
  fopen_write : List Event → String → Option String
  /-- The character read by `scanf(" %c", &response)`. -/
  scanf_char : List Event → Char

/-- Embedding of `file_exists` (main.c 126-128). -/
def file_exists (env : Env) (path : String) (w : List Event) : Bool :=
  env.access w path

/-- Embedding of `execute_command` (main.c 134-139). -/
def execute_command (env : Env) (cmd : String) (verbose : Bool) (w : List Event) :
    Int × List Event :=
  let w1 := if verbose then w ++ [Event.out ("Executing: " ++ cmd ++ "\n")] else w
  (env.system w1 cmd, w1 ++ [Event.exec cmd])

/-- Embedding of `create_default_config` (main.c 445-527). -/
def create_default_config (env : Env) (path : String) (w : List Event) : Int × List Event :=
  match env.fopen_write w path with
  | some strerror => (-1, w ++ [Event.err ("Error creating config file: " ++ strerror ++ "\n")])
  | none =>
    (0, w ++ [Event.write path default_config_text,
              Event.out ("Created default config file: " ++ path ++ "\n")])

/-- Embedding of `load_config` (main.c 529-644). -/
def load_config (env : Env) (path : String) (config : Config) (w : List Event) :
    Int × Config :=
  match env.fopen_read w path with
  | none => (-1, config)
  | some content => (0, load_config_text content config)

/-- Embedding of `run_pre_post_scripts` (main.c 646-652). -/
def run_pre_post_scripts (env : Env) (script phase : String) (w : List Event) :
    Int × List Event :=
  if script.length > 0 then
    execute_command env script true (w ++ [Event.out ("Running " ++ phase ++ " script...\n")])
  else (0, w)

/-! ## Command builders (main.c lines 654-824) -/

/-- The capacity-checked append used throughout the builders:
`cmd_len = strlen(cmd); remaining = sizeof(cmd) - cmd_len;`
`result = snprintf(cmd + cmd_len, remaining, seg);`
`if ((size_t)result >= remaining) { fprintf(stderr, msg); return -1; }`. -/
def snprintf_append (cmd seg msg : String) : Except String String :=
  let cmd_len := cmd.length
  let remaining := MAX_CMD_LEN - cmd_len
  let r := snprintf remaining seg
  if r.2 ≥ remaining then Except.error msg else Except.ok (cmd ++ r.1)

/-- POSIX `basename` (libgen.h, a libc function): the last component of a path, trailing
slashes removed; `"."` for the empty path and `"/"` for a path of slashes only. For a
path that is not empty the result lies inside the buffer passed in; for the empty path
it is a string constant of the library. -/
def basename (path : List Char) : List Char :=
  if path = [] then ['.']
  else
    let rev := path.reverse.dropWhile (fun c => c = '/')
    if rev = [] then ['/'] else (rev.takeWhile (fun c => c ≠ '/')).reverse

/-- Cut at the last dot: `dot = strrchr(filename, '.'); if (dot) *dot = 0;` (main.c 664-665). -/
def strip_last_dot (filename : List Char) : List Char :=
  if '.' ∈ filename then ((filename.reverse.dropWhile (fun c => c ≠ '.')).drop 1).reverse
  else filename

/-- The compiler chosen by `compile_rust_file` (main.c 656-657). -/
def compile_compiler (g : Config) : String :=
  if g.experimental then "rustcc"
  else if g.custom_path.length > 0 then g.custom_path else "rustc"

/-- The output file name of `compile_rust_file` (main.c 659-665): `strncpy` of at most
`MAX_PATH_LEN - 1` characters, `basename`, then cut at the last dot. It is the name the
source derives for a path that is not empty. For the empty path `basename` returns the
constant `"."` and the cut `*dot = 0` is a write into that constant: the source derives
no name there (the process dies), and the value `""` given here stands for nothing in
the source. -/
def compile_filename (opts : Options) : String :=
  let file_copy := opts.file.data.take (MAX_PATH_LEN - 1)
  String.mk (strip_last_dot (basename file_copy))

/-- Whether `compile_rust_file` gets past the cut of the extension, `if (dot) *dot = 0`
(main.c 663-665). For a path that is not empty `basename` points into `file_copy` and
the write goes to that buffer. For the empty path `basename` returns the string constant
`"."`, `strrchr` finds its dot, and the write into the constant ends the process. -/
def compile_rust_file_returns (opts : Options) : Bool :=
  !(opts.file.data.take (MAX_PATH_LEN - 1)).isEmpty

/-- The block "Add environment-specific flags" of `compile_rust_file` (main.c 681-702), applied to
the command assembled so far. -/
def compile_env_flags (g : Config) (opts : Options) (cmd : String) : Except String String :=
  if opts.release_mode = true ∨ strcmp opts.env_mode "prod" = 0 then
    if g.prod_flags.length > 0 then
      snprintf_append cmd (" " ++ g.prod_flags) "Error: Command with prod flags too long\n"
    else Except.ok cmd
  else if strcmp opts.env_mode "dev" = 0 then
    if g.dev_flags.length > 0 then
      snprintf_append cmd (" " ++ g.dev_flags) "Error: Command with dev flags too long\n"
    else Except.ok cmd
  else Except.ok cmd

/-- The block "Add target if specified" of `compile_rust_file` (main.c 704-713). -/
def compile_target (g : Config) (cmd : String) : Except String String :=
  if g.target.length > 0 then
    snprintf_append cmd (" --target " ++ g.target) "Error: Command with target too long\n"
  else Except.ok cmd

/-- The output path and the final segment of `compile_rust_file` (main.c 715-738): the
finished command together with the output path. -/
def compile_output (g : Config) (opts : Options) (filename cmd : String) :
    Except String (String × String) :=
  let output_dir := if g.output_dir.length > 0 then g.output_dir else "."
  let p := snprintf MAX_PATH_LEN (output_dir ++ "/" ++ filename)
  if p.2 ≥ MAX_PATH_LEN then Except.error "Error: Output path too long\n"
  else
    let output_path := p.1
    -- Build the final command with bounds checking
    let cmd_len := cmd.length
    let remaining := MAX_CMD_LEN - cmd_len
    -- Check if we have enough space before trying to append
    let needed := " -o ".length + output_path.length + " ".length + opts.file.length + 1
    if needed > remaining then Except.error "Error: Final command would be too long\n"
    else
      let f := snprintf remaining (" -o " ++ output_path ++ " " ++ opts.file)
      if f.2 ≥ remaining then Except.error "Error: Command construction failed\n"
      else Except.ok (cmd ++ f.1, output_path)

/-- The command assembly of `compile_rust_file` (main.c 674-738): either the message of
the length error the function reports before returning -1, or the assembled command
together with the output path. -/
def compile_rust_file_build (g : Config) (opts : Options) : Except String (String × String) :=
  let compiler := compile_compiler g
  let filename := compile_filename opts
  -- Build command with bounds checking
  let r := snprintf MAX_CMD_LEN (compiler ++ " " ++ g.flags)
  if r.2 ≥ MAX_CMD_LEN then Except.error "Error: Initial command too long\n"
  else
    match compile_env_flags g opts r.1 with
    | Except.error msg => Except.error msg
    | Except.ok cmd =>
      match compile_target g cmd with
      | Except.error msg => Except.error msg
      | Except.ok cmd => compile_output g opts filename cmd

/-- The `mkdir -p` step of `compile_rust_file` (main.c 667-672); its `snprintf` is not
checked and its result is ignored. -/
def compile_mkdir (env : Env) (g : Config) (opts : Options) (w : List Event) : List Event :=
  if g.output_dir.length > 0 then
    (execute_command env (snprintf MAX_CMD_LEN ("mkdir -p " ++ g.output_dir)).1
      opts.verbose w).2
  else w

/-- Embedding of `compile_rust_file` (main.c 654-750); `g` is the global `g_config`. It
follows the source for a file path that is not empty; for the empty path the source
does not get past main.c 665 (`compile_rust_file_returns`), so that none of the steps
below happens there. -/
def compile_rust_file (env : Env) (g : Config) (opts : Options) (w : List Event) :
    Int × List Event :=
  -- Create output directory if needed
  let w1 := compile_mkdir env g opts w
  -- Build command with bounds checking
  match compile_rust_file_build g opts with
  | Except.error msg => (-1, w1 ++ [Event.err msg])
  | Except.ok (cmd, output_path) =>
    let r := execute_command env cmd (opts.verbose || opts.very_verbose) w1
    -- Run the binary if requested
    if r.1 = 0 ∧ (opts.run_after = true ∨ g.run_on_save = true) then
      (r.1, (execute_command env (snprintf MAX_CMD_LEN ("./" ++ output_path)).1
        opts.verbose r.2).2)
    else r

/-- The environment flags of `run_cargo_command` (main.c 760-780), applied to the
command assembled so far. -/
def run_cargo_env_flags (g : Config) (opts : Options) (full_cmd : String) :
    Except String String :=
  if opts.release_mode = true ∨ strcmp opts.env_mode "prod" = 0 then
    if g.prod_flags.length > 0 then
      snprintf_append full_cmd (" " ++ g.prod_flags)
        "Error: Cargo command with prod flags too long\n"
    else Except.ok full_cmd
  else if strcmp opts.env_mode "test" = 0 then
    if g.test_flags.length > 0 then
      snprintf_append full_cmd (" " ++ g.test_flags)
        "Error: Cargo command with test flags too long\n"
    else Except.ok full_cmd
  else Except.ok full_cmd

/-- The command assembly of `run_cargo_command` (main.c 753-790). -/
def run_cargo_command_build (g : Config) (cmd : String) (opts : Options) :
    Except String String :=
  let r := snprintf MAX_CMD_LEN ("cargo " ++ cmd)
  if r.2 ≥ MAX_CMD_LEN then Except.error "Error: Cargo command too long\n"
  else
    match run_cargo_env_flags g opts r.1 with
    | Except.error msg => Except.error msg
    | Except.ok full_cmd =>
      if opts.verbose = true then
        snprintf_append full_cmd " --verbose"
          "Error: Cargo command with verbose flag too long\n"
      else Except.ok full_cmd

/-- Embedding of `run_cargo_command` (main.c 752-793). -/
def run_cargo_command (env : Env) (g : Config) (cmd : String) (opts : Options)
    (w : List Event) : Int × List Event :=
  match run_cargo_command_build g cmd opts with
  | Except.error msg => (-1, w ++ [Event.err msg])
  | Except.ok full_cmd => execute_command env full_cmd (opts.verbose || opts.very_verbose) w

/-- The command assembly of `format_code` (main.c 796-810). -/
def format_code_build (g : Config) (opts : Options) : Except String String :=
  let r := snprintf MAX_CMD_LEN (g.formatter ++ " " ++ g.formatter_flags)
  if r.2 ≥ MAX_CMD_LEN then Except.error "Error: Format command too long\n"
  else
    let cmd := r.1
    let target := if opts.file.length > 0 then opts.file else "src/"
    snprintf_append cmd (" " ++ target) "Error: Format command with target too long\n"

/-- Embedding of `format_code` (main.c 795-813). -/
def format_code (env : Env) (g : Config) (opts : Options) (w : List Event) :
    Int × List Event :=
  match format_code_build g opts with
  | Except.error msg => (-1, w ++ [Event.err msg])
  | Except.ok cmd => execute_command env cmd opts.verbose w

/-- The command assembly of `run_clippy` (main.c 816-821). -/
def run_clippy_build (g : Config) : Except String String :=
  let r := snprintf MAX_CMD_LEN ("cargo clippy " ++ g.clippy_flags)
  if r.2 ≥ MAX_CMD_LEN then Except.error "Error: Clippy command too long\n"
  else Except.ok r.1

/-- Embedding of `run_clippy` (main.c 815-824). -/
def run_clippy (env : Env) (g : Config) (opts : Options) (w : List Event) :
    Int × List Event :=
  match run_clippy_build g with
  | Except.error msg => (-1, w ++ [Event.err msg])
  | Except.ok cmd => execute_command env cmd opts.verbose w

/-! ## Project scaffolding (main.c lines 826-872) -/

/-- Embedding of `create_project` (main.c 826-872). -/
def create_project (env : Env) (name : String) (w : List Event) : Int × List Event :=
  if strcmp name "." = 0 then
    -- Initialize in current directory
    let w1 := w ++ [Event.out "Initializing rskid project in current directory...\n"]
    -- Check if Cargo.toml already exists
    let init : Option Int × List Event :=
      if !file_exists env "Cargo.toml" w1 then
        let r := execute_command env "cargo init" true w1
        if r.1 ≠ 0 then (some r.1, r.2 ++ [Event.err "Failed to initialize Cargo project\n"])
        else (none, r.2)
      else (none, w1)
    match init with
    | (some result, w2) => (result, w2)
    | (none, w2) =>
      -- Create .rskid config
      if !file_exists env ".rskid" w2 then
        (0, (create_default_config env ".rskid" w2).2)
      else (0, w2 ++ [Event.out "Configuration file .rskid already exists\n"])
  else
    -- Create new project directory
    let r := snprintf MAX_CMD_LEN ("cargo new " ++ name)
    if r.2 ≥ MAX_CMD_LEN then (-1, w ++ [Event.err "Project name too long\n"])
    else
      let cmd := r.1
      let e := execute_command env cmd true w
      let result := e.1
      if result = 0 then
        -- Create .rskid config in the new project
        let p := snprintf MAX_PATH_LEN (name ++ "/.rskid")
        let result : Int := p.2
        if p.2 ≥ MAX_PATH_LEN then (-1, e.2 ++ [Event.err "Config path too long\n"])
        else
          let config_path := p.1
          (result, (create_default_config env config_path e.2).2)
      else (result, e.2)

/-! ## Configuration stage of `main` (main.c lines 888-913) -/

/-- The block "Load configuration if specified" of `main` (main.c 888-913): the value of
the global `g_config` after it, starting from `g0` (the program starts with
`g_config_zero`), and the events. -/
def main_load_configuration (env : Env) (opts : Options) (g0 : Config) (w : List Event) :
    Config × List Event :=
  if opts.use_config = true then
    let config_path := if opts.config_path.length > 0 then opts.config_path else ".rskid.toml"
    let w1 :=
      if !file_exists env config_path w then
        if !opts.auto_yes then
          let wp := w ++ [Event.out
            ("Config file '" ++ config_path ++ "' not found. Create default? (y/n): ")]
          let response := env.scanf_char wp
          if response = 'y' ∨ response = 'Y' then (create_default_config env config_path wp).2
          else wp
        else (create_default_config env config_path w).2
      else w
    if file_exists env config_path w1 then
      ((load_config env config_path g0 w1).2, w1)
    else (init_default_config g0, w1)
  else (init_default_config g0, w)

/-! ## Option parser (main.c lines 360-413) -/

/-- The test `argv[i][0] == '-'`. -/
def starts_with_dash (arg : String) : Bool :=
  match arg.data with
  | c :: _ => c = '-'
  | [] => false

/-- The outcome of `parse_arguments`: it returns 0 with the options filled in, or it
prints help and ends the process with `exit(0)` (main.c 365-370), the help being the one
of the command found so far (`some command`) or the general one (`none`). -/
inductive ParseResult where
  | parsed (opts : Options)
  | help_exit (command : Option String)
  deriving DecidableEq, Repr

/-- The loop of `parse_arguments` over `argv[i], argv[i+1], ...` (main.c 363-411) with
the options and `command_found` as they are when the loop reaches `argv[i]`. A flag
that takes a value consumes the next argument (`argv[++i]`) when there is one. The
assignments of `file`, `config_path` and `command` are `strcpy` into arrays of
`MAX_PATH_LEN`, `MAX_PATH_LEN` and 64 bytes; they are the plain copies given here for
arguments shorter than that (`arguments_fit`), a longer argument runs over the members
of `Options` that follow the array. -/
def parse_arguments_loop : List String → Options → Bool → ParseResult
  | [], opts, _ => ParseResult.parsed opts
  | arg :: rest, opts, command_found =>
    if strcmp arg "-h" = 0 ∨ strcmp arg "--help" = 0 then
      ParseResult.help_exit (if command_found then some opts.command else none)
    else if strcmp arg "-f" = 0 ∨ strcmp arg "--file" = 0 then
      match rest with
      | value :: rest' => parse_arguments_loop rest' { opts with file := value } command_found
      | [] => ParseResult.parsed opts
    else if strcmp arg "-R" = 0 ∨ strcmp arg "--run" = 0 then
      parse_arguments_loop rest { opts with run_after := true } command_found
    else if strcmp arg "-r" = 0 ∨ strcmp arg "--release" = 0 then
      parse_arguments_loop rest { opts with release_mode := true } command_found
    else if strcmp arg "-s" = 0 ∨ strcmp arg "--skip" = 0 then
      parse_arguments_loop rest { opts with skip_compilation := true } command_found
    else if strcmp arg "-S" = 0 ∨ strcmp arg "--save" = 0 then
      parse_arguments_loop rest { opts with save_binary := true } command_found
    else if strcmp arg "-y" = 0 ∨ strcmp arg "--yes" = 0 then
      parse_arguments_loop rest { opts with auto_yes := true } command_found
    else if strcmp arg "-v" = 0 ∨ strcmp arg "--verbose" = 0 then
      parse_arguments_loop rest { opts with verbose := true } command_found
    else if strcmp arg "-V" = 0 ∨ strcmp arg "--very-verbose" = 0 then
      parse_arguments_loop rest { opts with very_verbose := true } command_found
    else if strcmp arg "-G" = 0 then
      parse_arguments_loop rest { opts with use_config := true } command_found
    else if strcmp arg "--cfg" = 0 then
      match rest with
      | value :: rest' =>
        parse_arguments_loop rest' { opts with config_path := value, use_config := true }
          command_found
      | [] => ParseResult.parsed opts
    else if strcmp arg "--lint" = 0 then
      parse_arguments_loop rest { opts with lint := true } command_found
    else if strcmp arg "--fmt" = 0 then
      parse_arguments_loop rest { opts with format := true } command_found
    else if strcmp arg "--dev" = 0 then
      parse_arguments_loop rest { opts with env_mode := "dev" } command_found
    else if strcmp arg "--prod" = 0 then
      parse_arguments_loop rest { opts with env_mode := "prod" } command_found
    else if strcmp arg "--test" = 0 then
      parse_arguments_loop rest { opts with env_mode := "test" } command_found
    else if starts_with_dash arg = false ∧ command_found = false then
      parse_arguments_loop rest { opts with command := arg } true
    else
      -- Skip other non-flag arguments after command is found
      parse_arguments_loop rest opts command_found

/-- Embedding of `parse_arguments` (main.c 360-413); `args` is `argv[1], ..., argv[argc-1]`. -/
def parse_arguments (args : List String) (opts : Options) : ParseResult :=
  parse_arguments_loop args opts false

/-! ## Dispatcher (main.c lines 874-984) -/

/-- Embedding of `is_cargo_project` (main.c 130-132). -/
def is_cargo_project (env : Env) (w : List Event) : Bool :=
  file_exists env "Cargo.toml" w

/-- Embedding of `print_version` (main.c 141-145). -/
def print_version (env : Env) (w : List Event) : List Event :=
  let w1 := w ++ [Event.out "rskid version 1.0.0\n"]
  let w2 := (execute_command env "rustc --version" false w1).2
  (execute_command env "cargo --version" false w2).2

/-- The loop "Look for project name in remaining arguments" of `main` (main.c 920-931)
over `argv[i], argv[i+1], ...`: at the first argument equal to the command that has a
successor, the successor is the name unless it starts with `-`; the name is `.` when
the loop finds nothing. -/
def main_project_name (command : String) : List String → String
  | [] => "."
  | arg :: rest =>
    match rest with
    | next :: _ =>
      if strcmp arg command = 0 then
        -- Check if next argument is not a flag
        if starts_with_dash next = false then next else "."
      else main_project_name command rest
    | [] => "."

/-- The block "Handle different commands" of `main` (main.c 915-983); `g` is the global
`g_config` after the configuration stage, `args` is `argv[1], ..., argv[argc-1]`. -/
def main_dispatch (env : Env) (g : Config) (opts : Options) (args : List String)
    (w : List Event) : Int × List Event :=
  if strcmp opts.command "version" = 0 then (0, print_version env w)
  else if strcmp opts.command "init" = 0 ∨ strcmp opts.command "create" = 0 then
    create_project env (main_project_name opts.command args) w
  else if strcmp opts.command "clean" = 0 then run_cargo_command env g "clean" opts w
  else if strcmp opts.command "test" = 0 then
    let w1 :=
      if g.pre_test.length > 0 then (run_pre_post_scripts env g.pre_test "pre-test" w).2
      else w
    let r := run_cargo_command env g "test" opts w1
    let w2 :=
      if g.post_test.length > 0 then (run_pre_post_scripts env g.post_test "post-test" r.2).2
      else r.2
    (r.1, w2)
  else if strcmp opts.command "fmt" = 0 then format_code env g opts w
  else if strcmp opts.command "doc" = 0 then run_cargo_command env g "doc" opts w
  else if strcmp opts.command "list" = 0 then run_cargo_command env g "run --bin" opts w
  else if strcmp opts.command "build" = 0 ∨ strcmp opts.command "run" = 0 then
    -- Format code if requested
    let w1 :=
      if opts.format = true ∨ g.auto_format = true then (format_code env g opts w).2 else w
    -- Run pre-build scripts
    let w2 :=
      if g.pre_build.length > 0 then (run_pre_post_scripts env g.pre_build "pre-build" w1).2
      else w1
    let r :=
      if is_cargo_project env w2 then
        run_cargo_command env g (if strcmp opts.command "build" = 0 then "build" else "run")
          opts w2
      else compile_rust_file env g opts w2
    -- Run clippy if requested
    let w3 :=
      if (opts.lint = true ∨ g.run_clippy = true) ∧ r.1 = 0 then (run_clippy env g opts r.2).2
      else r.2
    -- Run post-build scripts
    let w4 :=
      if g.post_build.length > 0 then
        (run_pre_post_scripts env g.post_build "post-build" w3).2
      else w3
    (r.1, w4)
  else (1, w ++ [Event.err ("Unknown command: " ++ opts.command ++ "\n")])

/-- Embedding of `main` (main.c 874-984): the exit status of the process and the events,
for the argument vector `argv` (`argv[0]` is the program name). -/
def main (env : Env) (argv : List String) : Int × List Event :=
  if argv.length < 2 then (1, [Event.help none])
  else
    match parse_arguments (argv.drop 1) main_initial_options with
    | ParseResult.help_exit command => (0, [Event.help command])
    | ParseResult.parsed opts =>
      -- Load configuration if specified
      let c := main_load_configuration env opts g_config_zero []
      -- Handle different commands
      main_dispatch env c.1 opts (argv.drop 1) c.2

/-! ## Command lines as the builders are meant to produce them -/

/-- The environment segment of the compiler command: prod flags under release mode or
mode "prod", dev flags under mode "dev", nothing otherwise; nothing for empty flags. -/
def compile_env_segment (g : Config) (opts : Options) : String :=
  if opts.release_mode = true ∨ opts.env_mode = "prod" then
    if g.prod_flags ≠ "" then " " ++ g.prod_flags else ""
  else if opts.env_mode = "dev" then
    if g.dev_flags ≠ "" then " " ++ g.dev_flags else ""
  else ""

/-- The output path `<output_dir>/<name>` of the compiler command, the name taken from
the whole input path and `.` standing for an empty output directory. -/
def compile_output_path (g : Config) (opts : Options) : String :=
  (if g.output_dir ≠ "" then g.output_dir else ".") ++ "/" ++
    String.mk (strip_last_dot (basename opts.file.data))

/-- The full compiler command line: the concatenation of all its parts. -/
def compile_command_line (g : Config) (opts : Options) : String :=
  compile_compiler g ++ " " ++ g.flags ++ compile_env_segment g opts ++
    (if g.target ≠ "" then " --target " ++ g.target else "") ++
    " -o " ++ compile_output_path g opts ++ " " ++ opts.file

/-- The environment segment of the package-manager command: prod flags under release
mode or mode "prod", test flags under mode "test", nothing otherwise. -/
def cargo_env_segment (g : Config) (opts : Options) : String :=
  if opts.release_mode = true ∨ opts.env_mode = "prod" then
    if g.prod_flags ≠ "" then " " ++ g.prod_flags else ""
  else if opts.env_mode = "test" then
    if g.test_flags ≠ "" then " " ++ g.test_flags else ""
  else ""

/-- The full package-manager command line: the concatenation of all its parts. -/
def cargo_command_line (g : Config) (cmd : String) (opts : Options) : String :=
  "cargo " ++ cmd ++ cargo_env_segment g opts ++
    (if opts.verbose = true then " --verbose" else "")

/-- The full format command line. -/
def format_command_line (g : Config) (opts : Options) : String :=
  g.formatter ++ " " ++ g.formatter_flags ++ " " ++
    (if opts.file ≠ "" then opts.file else "src/")

/-- The full lint command line. -/
def clippy_command_line (g : Config) : String :=
  "cargo clippy " ++ g.clippy_flags

/-- What it means for a builder started in history `w` to never run a truncated
command: its outcome `r` is either a reported length error with result -1 and nothing
executed, or it has run `line` (passed to `execute_command` with `verbose`), which is
shorter than `MAX_CMD_LEN`, as its first action. -/
def runs_untruncated (env : Env) (w : List Event) (line : String) (verbose : Bool)
    (r : Int × List Event) : Prop :=
  (∃ msg, r = (-1, w ++ [Event.err msg])) ∨
  (line.length < MAX_CMD_LEN ∧ ∃ rest, r.2 = (execute_command env line verbose w).2 ++ rest)

/-- The events of the `mkdir -p` step of `compile_rust_file`. -/
def compile_mkdir_events (g : Config) (opts : Options) : List Event :=
  if g.output_dir ≠ "" then
    (if opts.verbose = true then
      [Event.out ("Executing: " ++ (snprintf MAX_CMD_LEN ("mkdir -p " ++ g.output_dir)).1 ++
        "\n")]
     else []) ++ [Event.exec (snprintf MAX_CMD_LEN ("mkdir -p " ++ g.output_dir)).1]
  else []

/-- What it means for a builder started in history `w` to abort on a length error before
running a command: if its outcome `r` has a message on the error stream, then the
result is -1 and every command it has spawned is among `allowed`. -/
def aborts_on_length_error (w : List Event) (allowed : List String)
    (r : Int × List Event) : Prop :=
  (∃ msg, Event.err msg ∈ r.2.drop w.length) →
    r.1 = -1 ∧ ∀ c, Event.exec c ∈ r.2.drop w.length → c ∈ allowed

/-! ## Dispatcher and option parser as the specification describes them -/

/-- The external commands among a list of events, in order. -/
def executed_commands (events : List Event) : List String :=
  events.filterMap (fun e => match e with
    | Event.exec cmd => some cmd
    | _ => none)

/-- The events of a hook: nothing for an empty script, otherwise the phase banner, the
echo of the command and the command itself. -/
def hook_events (script phase : String) : List Event :=
  if script ≠ "" then
    [Event.out ("Running " ++ phase ++ " script...\n"),
     Event.out ("Executing: " ++ script ++ "\n"), Event.exec script]
  else []

/-- The arguments in flag position: all arguments except those consumed as the value
of `-f`, `--file` or `--cfg`. -/
def flag_position_tokens : List String → List String
  | [] => []
  | arg :: rest =>
    if arg = "-f" ∨ arg = "--file" ∨ arg = "--cfg" then
      match rest with
      | _ :: rest' => arg :: flag_position_tokens rest'
      | [] => [arg]
    else arg :: flag_position_tokens rest

/-- The first token that does not start with `-`, if there is one. -/
def first_command_token (tokens : List String) : Option String :=
  tokens.find? (fun t => starts_with_dash t = false)

/-- The arguments consumed as the value of `-f`, `--file` or `--cfg`: those that
`parse_arguments` copies into `file` and `config_path` (main.c 373, 393). -/
def flag_values : List String → List String
  | [] => []
  | arg :: rest =>
    if arg = "-f" ∨ arg = "--file" ∨ arg = "--cfg" then
      match rest with
      | value :: rest' => value :: flag_values rest'
      | [] => []
    else flag_values rest

/-- The argument lists on which no `strcpy` of `parse_arguments` writes past its array:
every value of `-f`, `--file` and `--cfg` is shorter than `file[MAX_PATH_LEN]` and
`config_path[MAX_PATH_LEN]`, and the token taken as the subcommand, if there is one, is
shorter than `command[64]`. -/
def arguments_fit (args : List String) : Prop :=
  (∀ value ∈ flag_values args, value.length < MAX_PATH_LEN) ∧
  ∀ token ∈ (first_command_token (flag_position_tokens args)).toList, token.length < 64

/-- The environment mode a token names: `dev`, `prod` or `test` for `--dev`, `--prod`,
`--test`, nothing for any other token. -/
def env_flag_mode (token : String) : Option String :=
  if token = "--dev" then some "dev"
  else if token = "--prod" then some "prod"
  else if token = "--test" then some "test"
  else none

/-- The mode named by the last environment flag among the tokens, `default` when there
is none. -/
def last_env_mode (tokens : List String) (default : String) : String :=
  ((tokens.filterMap env_flag_mode).getLast?).getD default

/-- The effect of one argument in flag position that is neither a help flag nor a flag
taking a value, on the options and on `command_found`. -/
def parse_single (arg : String) (opts : Options) (command_found : Bool) : Options × Bool :=
  if arg = "-R" ∨ arg = "--run" then ({ opts with run_after := true }, command_found)
  else if arg = "-r" ∨ arg = "--release" then
    ({ opts with release_mode := true }, command_found)
  else if arg = "-s" ∨ arg = "--skip" then
    ({ opts with skip_compilation := true }, command_found)
  else if arg = "-S" ∨ arg = "--save" then ({ opts with save_binary := true }, command_found)
  else if arg = "-y" ∨ arg = "--yes" then ({ opts with auto_yes := true }, command_found)
  else if arg = "-v" ∨ arg = "--verbose" then ({ opts with verbose := true }, command_found)
  else if arg = "-V" ∨ arg = "--very-verbose" then
    ({ opts with very_verbose := true }, command_found)
  else if arg = "-G" then ({ opts with use_config := true }, command_found)
  else if arg = "--lint" then ({ opts with lint := true }, command_found)
  else if arg = "--fmt" then ({ opts with format := true }, command_found)
  else if arg = "--dev" then ({ opts with env_mode := "dev" }, command_found)
  else if arg = "--prod" then ({ opts with env_mode := "prod" }, command_found)
  else if arg = "--test" then ({ opts with env_mode := "test" }, command_found)
  else if starts_with_dash arg = false ∧ command_found = false then
    ({ opts with command := arg }, true)
  else (opts, command_found)

/-! ## Configuration file format as the specification describes it -/

/-- The known section/key pairs of the configuration file, each with the one assignment
a `key=value` line makes under it: the named field receives the value (through
`parse_boolean` for a boolean field) and no other field changes. -/
def config_fields : List (String × String × (String → Config → Config)) :=
  [ ("compiler", "experimental", fun v c => { c with experimental := parse_boolean v }),
    ("compiler", "flags", fun v c => { c with flags := v }),
    ("compiler", "target", fun v c => { c with target := v }),
    ("compiler", "custom_path", fun v c => { c with custom_path := v }),
    ("env", "default_env", fun v c => { c with default_env := v }),
    ("env", "dev_flags", fun v c => { c with dev_flags := v }),
    ("env", "prod_flags", fun v c => { c with prod_flags := v }),
    ("env", "test_flags", fun v c => { c with test_flags := v }),
    ("custom", "pre_build", fun v c => { c with pre_build := v }),
    ("custom", "post_build", fun v c => { c with post_build := v }),
    ("custom", "pre_test", fun v c => { c with pre_test := v }),
    ("custom", "post_test", fun v c => { c with post_test := v }),
    ("lint", "run_clippy", fun v c => { c with run_clippy := parse_boolean v }),
    ("lint", "clippy_flags", fun v c => { c with clippy_flags := v }),
    ("fmt", "auto_format", fun v c => { c with auto_format := parse_boolean v }),
    ("fmt", "formatter", fun v c => { c with formatter := v }),
    ("fmt", "formatter_flags", fun v c => { c with formatter_flags := v }),
    ("binary", "output_dir", fun v c => { c with output_dir := v }),
    ("binary", "overwrite", fun v c => { c with overwrite := parse_boolean v }),
    ("binary", "skip_existing", fun v c => { c with skip_existing := parse_boolean v }),
    ("binary", "save_backup", fun v c => { c with save_backup := parse_boolean v }),
    ("project", "name", fun v c => { c with name := v }),
    ("project", "version", fun v c => { c with version := v }),
    ("project", "author", fun v c => { c with author := v }),
    ("project", "description", fun v c => { c with description := v }),
    ("features", "enable_experimental",
      fun v c => { c with enable_experimental := parse_boolean v }),
    ("features", "enable_logging", fun v c => { c with enable_logging := parse_boolean v }),
    ("features", "run_on_save", fun v c => { c with run_on_save := parse_boolean v }) ]

/-- The text of a string without its leading and its trailing white space, as the
specification describes trimming: the longest leading run and the longest trailing
run of space, tab, CR and LF are removed. -/
def trimmed (str : List Char) : List Char :=
  ((str.dropWhile is_space).reverse.dropWhile is_space).reverse

/-- What `load_config` does guarantee about the lengths of the string fields: every
field shorter than a line buffer (`MAX_LINE_LEN`) and, `default_env` apart, shorter
than its own array. -/
def within_line_length (c : Config) : Prop :=
  c.flags.length < MAX_VALUE_LEN ∧ c.target.length < MAX_VALUE_LEN ∧
  c.custom_path.length < MAX_PATH_LEN ∧ c.default_env.length < MAX_LINE_LEN ∧
  c.dev_flags.length < MAX_VALUE_LEN ∧ c.prod_flags.length < MAX_VALUE_LEN ∧
  c.test_flags.length < MAX_VALUE_LEN ∧ c.pre_build.length < MAX_CMD_LEN ∧
  c.post_build.length < MAX_CMD_LEN ∧ c.pre_test.length < MAX_CMD_LEN ∧
  c.post_test.length < MAX_CMD_LEN ∧ c.clippy_flags.length < MAX_VALUE_LEN ∧
  c.formatter.length < MAX_PATH_LEN ∧ c.formatter_flags.length < MAX_VALUE_LEN ∧
  c.output_dir.length < MAX_PATH_LEN ∧ c.name.length < MAX_VALUE_LEN ∧
  c.version.length < MAX_VALUE_LEN ∧ c.author.length < MAX_VALUE_LEN ∧
  c.description.length < MAX_VALUE_LEN

/-! ## Sample inputs -/

/-- An outside world in which every command succeeds and no file exists. -/
def env_ok : Env :=
  { system := fun _ _ => 0, access := fun _ _ => false, fopen_read := fun _ _ => none,
    fopen_write := fun _ _ => none, scanf_char := fun _ => 'n' }

/-- An outside world in which the configuration file exists and holds nothing but a
project name; every command succeeds. -/
def env_partial_config : Env :=
  { system := fun _ _ => 0, access := fun _ _ => true,
    fopen_read := fun _ _ => some "[project]\nname=demo\n",
    fopen_write := fun _ _ => none, scanf_char := fun _ => 'n' }

/-- An outside world in which every command fails with status 101. -/
def env_fail : Env :=
  { system := fun _ _ => 101, access := fun _ _ => false, fopen_read := fun _ _ => none,
    fopen_write := fun _ _ => none, scanf_char := fun _ => 'n' }

set_option maxRecDepth 100000

/-! ## Basic facts about the string helpers -/

theorem strcmp_aux_eq_zero_iff (a b : List Char) : strcmp_aux a b = 0 ↔ a = b := by
  induction a generalizing b with
  | nil => cases b <;> simp [strcmp_aux]
  | cons x xs ih =>
    cases b with
    | nil => simp [strcmp_aux]
    | cons y ys =>
      simp only [strcmp_aux]
      by_cases h : x = y
      · simp [h, ih]
      · simp only [h, if_false, List.cons.injEq, false_and, iff_false]
        split <;> decide

theorem strcmp_eq_zero_iff (a b : String) : strcmp a b = 0 ↔ a = b := by
  unfold strcmp
  rw [strcmp_aux_eq_zero_iff, String.ext_iff]

theorem snprintf_fits (size : Nat) (s : String) (h : s.length < size) :
    snprintf size s = (s, s.length) := by
  unfold snprintf
  have h1 : s.data.length ≤ size - 1 := by
    have : s.data.length = s.length := rfl
    omega
  rw [List.take_of_length_le h1]

theorem snprintf_snd (size : Nat) (s : String) : (snprintf size s).2 = s.length := rfl

theorem snprintf_fst (size : Nat) (s : String) :
    (snprintf size s).1 =
      if s.length < size then s else String.mk (s.data.take (size - 1)) := by
  split
  · rw [snprintf_fits _ _ (by assumption)]
  · rfl

theorem snprintf_append_eq (cmd seg msg : String) :
    snprintf_append cmd seg msg =
      if seg.length ≥ MAX_CMD_LEN - cmd.length then Except.error msg
      else Except.ok (cmd ++ seg) := by
  unfold snprintf_append
  simp only [snprintf_snd]
  split
  · rfl
  · rw [snprintf_fits _ _ (by omega)]

theorem len_sp : (" " : String).length = 1 := rfl
theorem len_cargo : ("cargo " : String).length = 6 := rfl
theorem len_verbose : (" --verbose" : String).length = 10 := rfl
theorem len_target : (" --target " : String).length = 10 := rfl
theorem len_o : (" -o " : String).length = 4 := rfl
theorem len_slash : ("/" : String).length = 1 := rfl
theorem len_clippy : ("cargo clippy " : String).length = 13 := rfl
theorem len_new : ("cargo new " : String).length = 10 := rfl
theorem len_rskid : ("/.rskid" : String).length = 7 := rfl
theorem len_src : ("src/" : String).length = 4 := rfl
theorem len_dot : ("." : String).length = 1 := rfl
theorem len_empty : ("" : String).length = 0 := rfl

theorem length_pos_iff (s : String) : s.length > 0 ↔ s ≠ "" := by
  rw [gt_iff_lt, Nat.pos_iff_ne_zero, ne_eq, ne_eq, String.ext_iff]
  show ¬ s.data.length = 0 ↔ ¬ s.data = []
  rw [List.length_eq_zero]

/-! ## The command assembly, stage by stage -/

theorem run_cargo_command_build_iff (g : Config) (cmd : String) (opts : Options) :
    (run_cargo_command_build g cmd opts = Except.ok (cargo_command_line g cmd opts) ∧
      (cargo_command_line g cmd opts).length < MAX_CMD_LEN) ∨
    ((∃ msg, run_cargo_command_build g cmd opts = Except.error msg) ∧
      MAX_CMD_LEN ≤ (cargo_command_line g cmd opts).length) := by
  simp only [run_cargo_command_build, run_cargo_env_flags, cargo_command_line,
    cargo_env_segment, snprintf_snd,
    snprintf_fst, snprintf_append_eq, strcmp_eq_zero_iff, length_pos_iff, MAX_CMD_LEN]
  split_ifs <;>
    simp only [String.length_append, String.append_empty, len_sp, len_cargo, len_verbose,
      len_empty, false_and, Except.error.injEq,
      exists_false, or_false, false_or, reduceCtorEq, exists_eq', true_and, true_or,
      Except.ok.injEq, String.append_assoc] at * <;>
    (try split_ifs) <;>
    (try simp only [String.length_append, String.append_empty, len_sp, len_cargo, len_verbose,
      len_empty, false_and, Except.error.injEq,
      exists_false, or_false, false_or, reduceCtorEq, exists_eq', true_and, true_or,
      Except.ok.injEq, String.append_assoc] at *) <;>
    (try omega)

theorem run_cargo_command_build_cases (g : Config) (cmd : String) (opts : Options) :
    (∃ msg, run_cargo_command_build g cmd opts = Except.error msg) ∨
    (run_cargo_command_build g cmd opts = Except.ok (cargo_command_line g cmd opts) ∧
      (cargo_command_line g cmd opts).length < MAX_CMD_LEN) := by
  rcases run_cargo_command_build_iff g cmd opts with h | ⟨h, -⟩
  · exact Or.inr h
  · exact Or.inl h

theorem run_cargo_command_fits (env : Env) (g : Config) (cmd : String) (opts : Options)
    (w : List Event) (h : (cargo_command_line g cmd opts).length < MAX_CMD_LEN) :
    run_cargo_command env g cmd opts w =
      execute_command env (cargo_command_line g cmd opts)
        (opts.verbose || opts.very_verbose) w := by
  unfold run_cargo_command
  rcases run_cargo_command_build_iff g cmd opts with ⟨ho, -⟩ | ⟨-, hl⟩
  · rw [ho]
  · omega

theorem run_cargo_command_too_long (env : Env) (g : Config) (cmd : String) (opts : Options)
    (w : List Event) (h : MAX_CMD_LEN ≤ (cargo_command_line g cmd opts).length) :
    ∃ msg, run_cargo_command env g cmd opts w = (-1, w ++ [Event.err msg]) := by
  unfold run_cargo_command
  rcases run_cargo_command_build_iff g cmd opts with ⟨-, hl⟩ | ⟨⟨msg, he⟩, -⟩
  · omega
  · exact ⟨msg, by rw [he]⟩

theorem compile_env_flags_cases (g : Config) (opts : Options) (cmd : String)
    (hc : cmd.length < MAX_CMD_LEN) :
    (∃ msg, compile_env_flags g opts cmd = Except.error msg) ∨
    (compile_env_flags g opts cmd = Except.ok (cmd ++ compile_env_segment g opts) ∧
      (cmd ++ compile_env_segment g opts).length < MAX_CMD_LEN) := by
  simp only [compile_env_flags, compile_env_segment, snprintf_append_eq, strcmp_eq_zero_iff,
    length_pos_iff, MAX_CMD_LEN] at *
  split_ifs <;>
    simp only [String.length_append, String.append_empty, len_sp, Except.error.injEq,
      reduceCtorEq, exists_eq', true_and, true_or, exists_false, false_or, false_and] at * <;>
    omega

theorem compile_target_cases (g : Config) (cmd : String) (hc : cmd.length < MAX_CMD_LEN) :
    (∃ msg, compile_target g cmd = Except.error msg) ∨
    (compile_target g cmd =
        Except.ok (cmd ++ (if g.target ≠ "" then " --target " ++ g.target else "")) ∧
      (cmd ++ (if g.target ≠ "" then " --target " ++ g.target else "")).length <
        MAX_CMD_LEN) := by
  simp only [compile_target, snprintf_append_eq, length_pos_iff, MAX_CMD_LEN] at *
  split_ifs <;>
    simp only [String.length_append, String.append_empty, len_target, Except.error.injEq,
      reduceCtorEq, exists_eq', true_and, true_or, exists_false, false_or, false_and] at * <;>
    omega

theorem compile_output_cases (g : Config) (opts : Options) (filename cmd : String)
    (hc : cmd.length < MAX_CMD_LEN) :
    (∃ msg, compile_output g opts filename cmd = Except.error msg) ∨
    (compile_output g opts filename cmd =
        Except.ok (cmd ++ (" -o " ++ ((if g.output_dir ≠ "" then g.output_dir else ".") ++
            "/" ++ filename) ++ " " ++ opts.file),
          (if g.output_dir ≠ "" then g.output_dir else ".") ++ "/" ++ filename) ∧
      (cmd ++ (" -o " ++ ((if g.output_dir ≠ "" then g.output_dir else ".") ++
            "/" ++ filename) ++ " " ++ opts.file)).length < MAX_CMD_LEN) := by
  simp only [compile_output, snprintf_snd, length_pos_iff]
  generalize (if g.output_dir ≠ "" then g.output_dir else ".") ++ "/" ++ filename = path
  by_cases hp : path.length ≥ MAX_PATH_LEN
  · left; exact ⟨_, if_pos hp⟩
  · rw [if_neg hp, snprintf_fits _ _ (by omega)]
    simp only [String.length_append, len_o, len_sp, MAX_CMD_LEN] at *
    by_cases hn : 4 + path.length + 1 + opts.file.length + 1 > 2048 - cmd.length
    · left; exact ⟨_, if_pos hn⟩
    · rw [if_neg hn, if_neg (by omega), snprintf_fits _ _
        (by simp only [String.length_append, len_o, len_sp]; omega)]
      right
      exact ⟨rfl, by omega⟩

theorem compile_filename_eq (opts : Options) (hfile : opts.file.length < MAX_PATH_LEN) :
    compile_filename opts = String.mk (strip_last_dot (basename opts.file.data)) := by
  unfold compile_filename
  have h1 : opts.file.data.length ≤ MAX_PATH_LEN - 1 := by
    have : opts.file.data.length = opts.file.length := rfl
    omega
  simp only [List.take_of_length_le h1]

theorem compile_rust_file_build_cases (g : Config) (opts : Options)
    (hfile : opts.file.length < MAX_PATH_LEN) :
    (∃ msg, compile_rust_file_build g opts = Except.error msg) ∨
    (compile_rust_file_build g opts =
        Except.ok (compile_command_line g opts, compile_output_path g opts) ∧
      (compile_command_line g opts).length < MAX_CMD_LEN) := by
  simp only [compile_rust_file_build, snprintf_snd, compile_filename_eq opts hfile]
  by_cases h0 : (compile_compiler g ++ " " ++ g.flags).length ≥ MAX_CMD_LEN
  · left; exact ⟨_, if_pos h0⟩
  · rw [if_neg h0, snprintf_fits _ _ (by omega)]
    rcases compile_env_flags_cases g opts _ (by omega : (compile_compiler g ++ " " ++ g.flags).length < MAX_CMD_LEN) with
      ⟨msg, he⟩ | ⟨he, hl⟩
    · left; exact ⟨msg, by rw [he]⟩
    · rw [he]
      rcases compile_target_cases g _ hl with ⟨msg, ht⟩ | ⟨ht, hl2⟩
      · left; exact ⟨msg, by simp only [ht]⟩
      · simp only [ht]
        rcases compile_output_cases g opts
          (String.mk (strip_last_dot (basename opts.file.data))) _ hl2 with
          ⟨msg, ho⟩ | ⟨ho, hl3⟩
        · left; exact ⟨msg, ho⟩
        · right
          have e : compile_command_line g opts = compile_compiler g ++ " " ++ g.flags ++
              compile_env_segment g opts ++
              (if g.target ≠ "" then " --target " ++ g.target else "") ++
              (" -o " ++ ((if g.output_dir ≠ "" then g.output_dir else ".") ++ "/" ++
                String.mk (strip_last_dot (basename opts.file.data))) ++ " " ++ opts.file) := by
            simp only [compile_command_line, compile_output_path, String.append_assoc]
          rw [e]
          exact ⟨ho, hl3⟩

theorem format_code_build_cases (g : Config) (opts : Options) :
    (∃ msg, format_code_build g opts = Except.error msg) ∨
    (format_code_build g opts = Except.ok (format_command_line g opts) ∧
      (format_command_line g opts).length < MAX_CMD_LEN) := by
  simp only [format_code_build, format_command_line, snprintf_snd, length_pos_iff]
  by_cases h0 : (g.formatter ++ " " ++ g.formatter_flags).length ≥ MAX_CMD_LEN
  · left; exact ⟨_, if_pos h0⟩
  · rw [if_neg h0, snprintf_fits _ _ (by omega), snprintf_append_eq]
    simp only [String.length_append, MAX_CMD_LEN] at *
    split_ifs <;>
      simp only [Except.error.injEq, reduceCtorEq, exists_eq', true_or, exists_false,
        false_or, true_and, String.append_assoc] at * <;>
      omega

theorem run_clippy_build_cases (g : Config) :
    (∃ msg, run_clippy_build g = Except.error msg) ∨
    (run_clippy_build g = Except.ok (clippy_command_line g) ∧
      (clippy_command_line g).length < MAX_CMD_LEN) := by
  simp only [run_clippy_build, clippy_command_line, snprintf_snd]
  by_cases h0 : ("cargo clippy " ++ g.clippy_flags).length ≥ MAX_CMD_LEN
  · left; exact ⟨_, if_pos h0⟩
  · rw [if_neg h0, snprintf_fits _ _ (by omega)]
    right
    exact ⟨rfl, by omega⟩

/-! ## Effects of `execute_command` -/

theorem execute_command_snd (env : Env) (cmd : String) (verbose : Bool) (w : List Event) :
    (execute_command env cmd verbose w).2 =
      w ++ ((if verbose = true then [Event.out ("Executing: " ++ cmd ++ "\n")] else []) ++
        [Event.exec cmd]) := by
  unfold execute_command
  cases verbose <;> simp

theorem compile_mkdir_eq (env : Env) (g : Config) (opts : Options) (w : List Event) :
    compile_mkdir env g opts w = w ++ compile_mkdir_events g opts := by
  unfold compile_mkdir compile_mkdir_events
  simp only [length_pos_iff, execute_command_snd]
  split <;> simp

theorem aborts_of_build (env : Env) (w : List Event) (verbose : Bool)
    (b : Except String String) (r : Int × List Event)
    (hr : r = match b with
      | Except.error msg => (-1, w ++ [Event.err msg])
      | Except.ok cmd => execute_command env cmd verbose w) :
    aborts_on_length_error w [] r := by
  subst hr
  intro ⟨m, hm⟩
  cases b with
  | error msg =>
    refine ⟨rfl, fun c hc => ?_⟩
    simp only [List.drop_left, List.mem_singleton, reduceCtorEq] at hc
  | ok cmd =>
    exfalso
    simp only [execute_command_snd, List.drop_left] at hm
    split_ifs at hm <;> simp at hm

/-! # The claims -/

/-! ## Configuration store -/

/-- C1 (evaluation at the failing input): with `-G` and an existing configuration file
that only sets `[project] name`, `main` calls `load_config` on the zero-initialised
global without `init_default_config`, so the fields the file does not set stay empty or
false instead of holding the defaults (`flags`, `custom_path`, `run_clippy` shown). -/
theorem main_loaded_config_lacks_defaults :
    main_load_configuration env_partial_config
        { main_initial_options with use_config := true } g_config_zero [] =
      ({ g_config_zero with name := "demo" }, []) ∧
    ({ g_config_zero with name := "demo" } : Config).flags = "" ∧
    (init_default_config g_config_zero).flags = "-C opt-level=3" ∧
    ({ g_config_zero with name := "demo" } : Config).custom_path = "" ∧
    (init_default_config g_config_zero).custom_path = "rustc" ∧
    ({ g_config_zero with name := "demo" } : Config).run_clippy = false ∧
    (init_default_config g_config_zero).run_clippy = true := by
  decide

/-- C2 (evaluation at the failing input): for every starting configuration, loading
the text written by `create_default_config` gives the values of `init_default_config`
in every field except `clippy_flags`, which the file sets to `--deny warnings` and
`init_default_config` never assigns (it stays empty on the zero-initialised global). -/
theorem default_file_reload_differs_on_clippy_flags (config : Config) :
    load_config_text default_config_text config =
      { init_default_config config with clippy_flags := "--deny warnings" } ∧
    (load_config_text default_config_text g_config_zero).clippy_flags = "--deny warnings" ∧
    (init_default_config g_config_zero).clippy_flags = "" := by
  refine ⟨rfl, ?_, rfl⟩
  decide

/-- C3: `parse_boolean` returns true exactly for the strings "true", "1" and "yes";
case variants, the empty string and other numbers give false. -/
theorem parse_boolean_true_iff (value : String) :
    (parse_boolean value = true ↔ value = "true" ∨ value = "1" ∨ value = "yes") ∧
    parse_boolean "True" = false ∧ parse_boolean "TRUE" = false ∧
    parse_boolean "YES" = false ∧ parse_boolean "Yes" = false ∧
    parse_boolean "" = false ∧ parse_boolean "0" = false ∧ parse_boolean "2" = false ∧
    parse_boolean "10" = false ∧ parse_boolean "01" = false ∧
    parse_boolean " true" = false ∧ parse_boolean "false" = false := by
  refine ⟨?_, by decide⟩
  simp only [parse_boolean, Bool.or_eq_true, beq_iff_eq, strcmp_eq_zero_iff, or_assoc]

/-! ## Command builders -/

/-- C4: no command builder runs a truncated command. For options whose file path fits
its array, `compile_rust_file` (after its `mkdir` step; for a non-empty file path, the
empty one being the input on which main.c 665 writes into the constant that `basename`
returns), `run_cargo_command`, `format_code`, `run_clippy` and the `cargo new` branch of
`create_project` each either report a length error, return -1 and run nothing, or pass
to `execute_command` the full concatenation of the command's parts, whose length is
below `MAX_CMD_LEN`. -/
theorem builders_run_only_untruncated_commands (env : Env) (g : Config) (opts : Options)
    (cmd name : String) (w : List Event)
    (hfile : opts.file.length < MAX_PATH_LEN) (hname : name ≠ ".") :
    (opts.file ≠ "" →
      runs_untruncated env (compile_mkdir env g opts w) (compile_command_line g opts)
        (opts.verbose || opts.very_verbose) (compile_rust_file env g opts w)) ∧
    runs_untruncated env w (cargo_command_line g cmd opts)
      (opts.verbose || opts.very_verbose) (run_cargo_command env g cmd opts w) ∧
    runs_untruncated env w (format_command_line g opts) opts.verbose
      (format_code env g opts w) ∧
    runs_untruncated env w (clippy_command_line g) opts.verbose (run_clippy env g opts w) ∧
    runs_untruncated env w ("cargo new " ++ name) true (create_project env name w) := by
  refine ⟨?_, ?_, ?_, ?_, ?_⟩
  · intro _
    unfold compile_rust_file
    rcases compile_rust_file_build_cases g opts hfile with ⟨msg, he⟩ | ⟨ho, hl⟩
    · rw [he]; exact Or.inl ⟨msg, rfl⟩
    · rw [ho]
      refine Or.inr ⟨hl, ?_⟩
      simp only
      split
      · exact ⟨_, by
          rw [execute_command_snd env (snprintf MAX_CMD_LEN
            ("./" ++ compile_output_path g opts)).1]⟩
      · exact ⟨[], by simp⟩
  · unfold run_cargo_command
    rcases run_cargo_command_build_cases g cmd opts with ⟨msg, he⟩ | ⟨ho, hl⟩
    · rw [he]; exact Or.inl ⟨msg, rfl⟩
    · rw [ho]; exact Or.inr ⟨hl, [], by simp⟩
  · unfold format_code
    rcases format_code_build_cases g opts with ⟨msg, he⟩ | ⟨ho, hl⟩
    · rw [he]; exact Or.inl ⟨msg, rfl⟩
    · rw [ho]; exact Or.inr ⟨hl, [], by simp⟩
  · unfold run_clippy
    rcases run_clippy_build_cases g with ⟨msg, he⟩ | ⟨ho, hl⟩
    · rw [he]; exact Or.inl ⟨msg, rfl⟩
    · rw [ho]; exact Or.inr ⟨hl, [], by simp⟩
  · unfold create_project
    rw [if_neg (by rw [strcmp_eq_zero_iff]; exact hname)]
    simp only [snprintf_snd]
    by_cases h0 : ("cargo new " ++ name).length ≥ MAX_CMD_LEN
    · rw [if_pos h0]; exact Or.inl ⟨_, rfl⟩
    · rw [if_neg h0, snprintf_fits _ _ (by omega)]
      refine Or.inr ⟨by omega, ?_⟩
      split_ifs
      · exact ⟨_, rfl⟩
      · simp only [create_default_config]
        split
        · exact ⟨_, rfl⟩
        · exact ⟨_, rfl⟩
      · exact ⟨[], by simp⟩

/-- C4, witness: the default configuration, the file `main.x`, `cargo build` and the
project name `myapp`. -/
theorem builders_run_only_untruncated_commands_witness :
    ("main.x" : String).length < MAX_PATH_LEN ∧ ("myapp" : String) ≠ "." ∧
    ("main.x" : String) ≠ "" ∧
    (runs_untruncated env_ok
        (compile_mkdir env_ok (init_default_config g_config_zero)
          { main_initial_options with file := "main.x" } [])
        (compile_command_line (init_default_config g_config_zero)
          { main_initial_options with file := "main.x" })
        (({ main_initial_options with file := "main.x" } : Options).verbose ||
          ({ main_initial_options with file := "main.x" } : Options).very_verbose)
        (compile_rust_file env_ok (init_default_config g_config_zero)
          { main_initial_options with file := "main.x" } []) ∧
      runs_untruncated env_ok []
        (cargo_command_line (init_default_config g_config_zero) "build"
          { main_initial_options with file := "main.x" })
        (({ main_initial_options with file := "main.x" } : Options).verbose ||
          ({ main_initial_options with file := "main.x" } : Options).very_verbose)
        (run_cargo_command env_ok (init_default_config g_config_zero) "build"
          { main_initial_options with file := "main.x" } []) ∧
      runs_untruncated env_ok []
        (format_command_line (init_default_config g_config_zero)
          { main_initial_options with file := "main.x" })
        ({ main_initial_options with file := "main.x" } : Options).verbose
        (format_code env_ok (init_default_config g_config_zero)
          { main_initial_options with file := "main.x" } []) ∧
      runs_untruncated env_ok [] (clippy_command_line (init_default_config g_config_zero))
        ({ main_initial_options with file := "main.x" } : Options).verbose
        (run_clippy env_ok (init_default_config g_config_zero)
          { main_initial_options with file := "main.x" } []) ∧
      runs_untruncated env_ok [] ("cargo new " ++ "myapp") true
        (create_project env_ok "myapp" [])) :=
  ⟨by decide, by decide, by decide,
    (builders_run_only_untruncated_commands env_ok (init_default_config g_config_zero)
      { main_initial_options with file := "main.x" } "build" "myapp" []
      (by decide) (by decide)).1 (by decide),
    (builders_run_only_untruncated_commands env_ok (init_default_config g_config_zero)
      { main_initial_options with file := "main.x" } "build" "myapp" []
      (by decide) (by decide)).2⟩

/-- C5 (counterexample): with the default configuration and a loose file whose name has
1023 characters, `compile_rust_file` reports the length error "Output path too long" and
returns -1, yet it has already run the external command `mkdir -p ./bin`. -/
theorem compile_length_error_after_mkdir :
    compile_rust_file env_ok (init_default_config g_config_zero)
        { main_initial_options with file := String.mk (List.replicate 1023 'a') } [] =
      (-1, [Event.exec "mkdir -p ./bin", Event.err "Error: Output path too long\n"]) := by
  decide

/-- C5 (amended): a builder that reports a length error returns -1 and has not run its
command. `run_cargo_command`, `format_code` and `run_clippy` have then spawned nothing;
`compile_rust_file` has spawned at most its preparatory `mkdir -p <output_dir>`, which
it runs before assembling the command, and only when `output_dir` is not empty. -/
theorem length_error_aborts_before_command (env : Env) (g : Config) (opts : Options)
    (cmd : String) (w : List Event) :
    aborts_on_length_error w
      (if g.output_dir ≠ "" then [(snprintf MAX_CMD_LEN ("mkdir -p " ++ g.output_dir)).1]
       else [])
      (compile_rust_file env g opts w) ∧
    aborts_on_length_error w [] (run_cargo_command env g cmd opts w) ∧
    aborts_on_length_error w [] (format_code env g opts w) ∧
    aborts_on_length_error w [] (run_clippy env g opts w) := by
  refine ⟨?_, aborts_of_build env w _ _ _ rfl, aborts_of_build env w _ _ _ rfl,
    aborts_of_build env w _ _ _ rfl⟩
  intro ⟨m, hm⟩
  unfold compile_rust_file at hm ⊢
  cases hb : compile_rust_file_build g opts with
  | error msg =>
    refine ⟨rfl, fun c hc => ?_⟩
    simp only [compile_mkdir_eq, List.append_assoc, List.drop_left] at hc
    unfold compile_mkdir_events at hc
    split_ifs at hc ⊢ <;> simp at hc ⊢ <;> exact hc
  | ok p =>
    exfalso
    obtain ⟨c, path⟩ := p
    simp only [hb, compile_mkdir_eq] at hm
    unfold compile_mkdir_events at hm
    split_ifs at hm <;>
      simp [execute_command_snd] at hm

/-- C5 (amended), witness: at the input of the counterexample a length error is on the
error stream, the result is -1 and the only command spawned is `mkdir -p ./bin`. -/
theorem length_error_aborts_before_command_witness :
    (compile_rust_file env_ok (init_default_config g_config_zero)
        { main_initial_options with file := String.mk (List.replicate 1023 'a') } []).1 = -1 ∧
    ∀ c, Event.exec c ∈ ((compile_rust_file env_ok (init_default_config g_config_zero)
        { main_initial_options with file := String.mk (List.replicate 1023 'a') } []).2.drop
          ([] : List Event).length) →
      c ∈ (if (init_default_config g_config_zero).output_dir ≠ "" then
        [(snprintf MAX_CMD_LEN
          ("mkdir -p " ++ (init_default_config g_config_zero).output_dir)).1] else []) :=
  (length_error_aborts_before_command env_ok (init_default_config g_config_zero)
    { main_initial_options with file := String.mk (List.replicate 1023 'a') } "build" []).1
    ⟨"Error: Output path too long\n", by decide⟩

/-! ## Environment flags of the package-manager command -/

/-- C6: under release mode or environment mode "prod", the command `run_cargo_command`
runs is `cargo <cmd>`, then ` <prod_flags>` when the prod flags are not empty, then
` --verbose` when verbose is set, and nothing else (no dev or test flags); that is the
command run whenever it fits the buffer, and otherwise nothing is run. -/
theorem run_cargo_command_prod_flags (env : Env) (g : Config) (cmd : String)
    (opts : Options) (w : List Event)
    (hmode : opts.release_mode = true ∨ opts.env_mode = "prod") :
    (("cargo " ++ cmd ++ (if g.prod_flags ≠ "" then " " ++ g.prod_flags else "") ++
        (if opts.verbose = true then " --verbose" else "")).length < MAX_CMD_LEN →
      run_cargo_command env g cmd opts w =
        execute_command env
          ("cargo " ++ cmd ++ (if g.prod_flags ≠ "" then " " ++ g.prod_flags else "") ++
            (if opts.verbose = true then " --verbose" else ""))
          (opts.verbose || opts.very_verbose) w) ∧
    (MAX_CMD_LEN ≤ ("cargo " ++ cmd ++
        (if g.prod_flags ≠ "" then " " ++ g.prod_flags else "") ++
        (if opts.verbose = true then " --verbose" else "")).length →
      ∃ msg, run_cargo_command env g cmd opts w = (-1, w ++ [Event.err msg])) := by
  have e : cargo_command_line g cmd opts =
      "cargo " ++ cmd ++ (if g.prod_flags ≠ "" then " " ++ g.prod_flags else "") ++
        (if opts.verbose = true then " --verbose" else "") := by
    simp only [cargo_command_line, cargo_env_segment, if_pos hmode]
  rw [← e]
  exact ⟨run_cargo_command_fits env g cmd opts w, run_cargo_command_too_long env g cmd opts w⟩

/-- C6, witness: `cargo build` under `--release` with the default configuration runs
`cargo build --release`. -/
theorem run_cargo_command_prod_flags_witness :
    (({ main_initial_options with release_mode := true } : Options).release_mode = true ∨
      ({ main_initial_options with release_mode := true } : Options).env_mode = "prod") ∧
    run_cargo_command env_ok (init_default_config g_config_zero) "build"
        { main_initial_options with release_mode := true } [] =
      execute_command env_ok "cargo build --release" false [] :=
  ⟨by decide,
    (run_cargo_command_prod_flags env_ok (init_default_config g_config_zero) "build"
      { main_initial_options with release_mode := true } [] (by decide)).1 (by decide)⟩

/-- C7 (evaluation at the failing input): with `dev_flags = "--features dbg"` and
environment mode "dev" (no release flag), `run_cargo_command "build"` runs plain
`cargo build`: the function has no branch for mode "dev", so the dev flags are left
out, whereas `compile_rust_file` appends them under the same mode. -/
theorem run_cargo_command_drops_dev_flags :
    run_cargo_command env_ok
        { init_default_config g_config_zero with dev_flags := "--features dbg" } "build"
        main_initial_options [] =
      (0, [Event.exec "cargo build"]) ∧
    main_initial_options.env_mode = "dev" ∧
    compile_rust_file_build
        { init_default_config g_config_zero with dev_flags := "--features dbg" }
        { main_initial_options with file := "main.rs" } =
      Except.ok ("rustc -C opt-level=3 --features dbg --target x86_64-unknown-linux-gnu" ++
        " -o ./bin/main main.rs", "./bin/main") :=
  ⟨by decide, rfl, rfl⟩

/-- C8 (counterexample): with environment mode "test" and the release flag set
(`rskid test --test -r`), `run_cargo_command "test"` runs `cargo test --release`; the
configured test flags `--all-targets` are not in it. -/
theorem run_cargo_command_release_hides_test_flags :
    ({ main_initial_options with env_mode := "test", release_mode := true } :
      Options).env_mode = "test" ∧
    (init_default_config g_config_zero).test_flags = "--all-targets" ∧
    run_cargo_command env_ok (init_default_config g_config_zero) "test"
        { main_initial_options with env_mode := "test", release_mode := true } [] =
      (0, [Event.exec "cargo test --release"]) ∧
    ("cargo test --all-targets".data.isPrefixOf "cargo test --release".data) = false := by
  decide

/-- C8 (amended): under environment mode "test" with the release flag not set and
non-empty test flags, the command `run_cargo_command` runs is `cargo <cmd>`, then
` <test_flags>`, then ` --verbose` when verbose is set; that is the command run whenever
it fits the buffer, and otherwise nothing is run. -/
theorem run_cargo_command_test_flags (env : Env) (g : Config) (cmd : String)
    (opts : Options) (w : List Event)
    (hflags : g.test_flags ≠ "") (hmode : opts.env_mode = "test")
    (hrelease : opts.release_mode = false) :
    (("cargo " ++ cmd ++ (" " ++ g.test_flags) ++
        (if opts.verbose = true then " --verbose" else "")).length < MAX_CMD_LEN →
      run_cargo_command env g cmd opts w =
        execute_command env
          ("cargo " ++ cmd ++ (" " ++ g.test_flags) ++
            (if opts.verbose = true then " --verbose" else ""))
          (opts.verbose || opts.very_verbose) w) ∧
    (MAX_CMD_LEN ≤ ("cargo " ++ cmd ++ (" " ++ g.test_flags) ++
        (if opts.verbose = true then " --verbose" else "")).length →
      ∃ msg, run_cargo_command env g cmd opts w = (-1, w ++ [Event.err msg])) := by
  have e : cargo_command_line g cmd opts =
      "cargo " ++ cmd ++ (" " ++ g.test_flags) ++
        (if opts.verbose = true then " --verbose" else "") := by
    have hp : ¬ (opts.release_mode = true ∨ opts.env_mode = "prod") := by
      rw [hrelease, hmode]; decide
    simp only [cargo_command_line, cargo_env_segment, if_neg hp, if_pos hmode, if_pos hflags]
  rw [← e]
  exact ⟨run_cargo_command_fits env g cmd opts w, run_cargo_command_too_long env g cmd opts w⟩

/-- C8 (amended), witness: `cargo test` under `--test` with the default configuration
runs `cargo test --all-targets`. -/
theorem run_cargo_command_test_flags_witness :
    (init_default_config g_config_zero).test_flags ≠ "" ∧
    ({ main_initial_options with env_mode := "test" } : Options).env_mode = "test" ∧
    ({ main_initial_options with env_mode := "test" } : Options).release_mode = false ∧
    run_cargo_command env_ok (init_default_config g_config_zero) "test"
        { main_initial_options with env_mode := "test" } [] =
      execute_command env_ok "cargo test --all-targets" false [] :=
  ⟨by decide, by decide, by decide,
    (run_cargo_command_test_flags env_ok (init_default_config g_config_zero) "test"
      { main_initial_options with env_mode := "test" } []
      (by decide) (by decide) (by decide)).1 (by decide)⟩

/-! ## Project scaffolding -/

/-- C9 (evaluation at the failing input): for the name `myapp` with `cargo new myapp`
returning 0, `create_project` writes the default configuration to `myapp/.rskid`, but it
returns 12, the length of that path: `result` is overwritten with the value of the
`snprintf` that builds the path, and that value is what the function returns. -/
theorem create_project_returns_path_length :
    create_project env_ok "myapp" [] =
      (12, [Event.out "Executing: cargo new myapp\n", Event.exec "cargo new myapp",
        Event.write "myapp/.rskid" default_config_text,
        Event.out "Created default config file: myapp/.rskid\n"]) ∧
    env_ok.system [Event.out "Executing: cargo new myapp\n"] "cargo new myapp" = 0 ∧
    ("myapp/.rskid" : String).length = 12 :=
  ⟨rfl, rfl, rfl⟩

/-- C10: for a project name other than "." whose `cargo new <name>` command fits the
buffer and returns a non-zero status, `create_project` returns exactly that status and
does nothing after the command: the default configuration is not written. -/
theorem create_project_failure_status (env : Env) (name : String) (w : List Event)
    (hname : name ≠ ".") (hfit : ("cargo new " ++ name).length < MAX_CMD_LEN)
    (hfail : env.system (w ++ [Event.out ("Executing: " ++ ("cargo new " ++ name) ++ "\n")])
      ("cargo new " ++ name) ≠ 0) :
    create_project env name w =
      (env.system (w ++ [Event.out ("Executing: " ++ ("cargo new " ++ name) ++ "\n")])
          ("cargo new " ++ name),
        w ++ [Event.out ("Executing: " ++ ("cargo new " ++ name) ++ "\n")] ++
          [Event.exec ("cargo new " ++ name)]) ∧
    ∀ path content, Event.write path content ∉ ((create_project env name w).2.drop w.length) := by
  have h : create_project env name w =
      (env.system (w ++ [Event.out ("Executing: " ++ ("cargo new " ++ name) ++ "\n")])
          ("cargo new " ++ name),
        w ++ [Event.out ("Executing: " ++ ("cargo new " ++ name) ++ "\n")] ++
          [Event.exec ("cargo new " ++ name)]) := by
    unfold create_project
    rw [if_neg (by rw [strcmp_eq_zero_iff]; exact hname)]
    simp only [snprintf_snd]
    rw [if_neg (by omega), snprintf_fits _ _ hfit]
    simp only [execute_command, if_true]
    rw [if_neg hfail]
  refine ⟨h, fun path content hmem => ?_⟩
  rw [h] at hmem
  simp only [List.append_assoc, List.drop_left] at hmem
  simp at hmem

/-- C10, witness: `cargo new myapp` failing with status 101. -/
theorem create_project_failure_status_witness :
    ("myapp" : String) ≠ "." ∧ ("cargo new " ++ "myapp").length < MAX_CMD_LEN ∧
    env_fail.system ([] ++ [Event.out ("Executing: " ++ ("cargo new " ++ "myapp") ++ "\n")])
      ("cargo new " ++ "myapp") ≠ 0 ∧
    (create_project env_fail "myapp" [] =
      (env_fail.system
          ([] ++ [Event.out ("Executing: " ++ ("cargo new " ++ "myapp") ++ "\n")])
          ("cargo new " ++ "myapp"),
        [] ++ [Event.out ("Executing: " ++ ("cargo new " ++ "myapp") ++ "\n")] ++
          [Event.exec ("cargo new " ++ "myapp")]) ∧
      ∀ path content,
        Event.write path content ∉
          ((create_project env_fail "myapp" []).2.drop ([] : List Event).length)) :=
  ⟨by decide, by decide, by decide,
    create_project_failure_status env_fail "myapp" [] (by decide) (by decide) (by decide)⟩

/-! ## Dispatcher -/

theorem cargo_command_line_fits (g : Config) (cmd : String) (opts : Options)
    (hcmd : cmd.length ≤ 16)
    (hprod : g.prod_flags.length < MAX_VALUE_LEN) (htest : g.test_flags.length < MAX_VALUE_LEN) :
    (cargo_command_line g cmd opts).length < MAX_CMD_LEN := by
  simp only [cargo_command_line, cargo_env_segment, MAX_VALUE_LEN, MAX_CMD_LEN] at *
  split_ifs <;>
    simp only [String.length_append, len_cargo, len_sp, len_verbose, len_empty] <;> omega

theorem run_pre_post_scripts_snd (env : Env) (script phase : String) (w : List Event) :
    (run_pre_post_scripts env script phase w).2 = w ++ hook_events script phase := by
  unfold run_pre_post_scripts hook_events
  simp only [length_pos_iff]
  split
  · simp [execute_command]
  · simp

theorem hook_step (env : Env) (script phase : String) (w : List Event) :
    (if script.length > 0 then (run_pre_post_scripts env script phase w).2 else w) =
      w ++ hook_events script phase := by
  split
  · exact run_pre_post_scripts_snd env script phase w
  · rename_i h
    rw [length_pos_iff, not_not] at h
    simp [hook_events, h]

theorem executed_commands_append (a b : List Event) :
    executed_commands (a ++ b) = executed_commands a ++ executed_commands b := by
  simp [executed_commands, List.filterMap_append]

theorem executed_commands_hook (script phase : String) :
    executed_commands (hook_events script phase) = if script ≠ "" then [script] else [] := by
  unfold hook_events
  split <;> simp [executed_commands]

/-- C11: the `test` subcommand, for a configuration whose flag fields fit their arrays.
The events are the pre-test hook (when `pre_test` is not empty), the `cargo test`
command, then the post-test hook (when `post_test` is not empty), whatever status the
command returned; the commands run are, in this order, `pre_test`, the cargo command
and `post_test`; and the exit code is the value `system` returned for the cargo
command, the hooks' statuses playing no part. -/
theorem test_subcommand_sequence (env : Env) (g : Config) (opts : Options)
    (args : List String) (w : List Event) (hcmd : opts.command = "test")
    (hprod : g.prod_flags.length < MAX_VALUE_LEN)
    (htest : g.test_flags.length < MAX_VALUE_LEN) :
    main_dispatch env g opts args w =
      (env.system
          (w ++ hook_events g.pre_test "pre-test" ++
            (if (opts.verbose || opts.very_verbose) = true then
              [Event.out ("Executing: " ++ cargo_command_line g "test" opts ++ "\n")]
             else []))
          (cargo_command_line g "test" opts),
        w ++ hook_events g.pre_test "pre-test" ++
          (if (opts.verbose || opts.very_verbose) = true then
            [Event.out ("Executing: " ++ cargo_command_line g "test" opts ++ "\n")]
           else []) ++
          [Event.exec (cargo_command_line g "test" opts)] ++
          hook_events g.post_test "post-test") ∧
    executed_commands ((main_dispatch env g opts args w).2.drop w.length) =
      (if g.pre_test ≠ "" then [g.pre_test] else []) ++
        [cargo_command_line g "test" opts] ++
        (if g.post_test ≠ "" then [g.post_test] else []) := by
  have hfit := cargo_command_line_fits g "test" opts (by decide) hprod htest
  have h : main_dispatch env g opts args w =
      (env.system
          (w ++ hook_events g.pre_test "pre-test" ++
            (if (opts.verbose || opts.very_verbose) = true then
              [Event.out ("Executing: " ++ cargo_command_line g "test" opts ++ "\n")]
             else []))
          (cargo_command_line g "test" opts),
        w ++ hook_events g.pre_test "pre-test" ++
          (if (opts.verbose || opts.very_verbose) = true then
            [Event.out ("Executing: " ++ cargo_command_line g "test" opts ++ "\n")]
           else []) ++
          [Event.exec (cargo_command_line g "test" opts)] ++
          hook_events g.post_test "post-test") := by
    unfold main_dispatch
    simp only [hcmd, strcmp_eq_zero_iff]
    rw [if_neg (by decide), if_neg (by decide), if_neg (by decide), if_pos trivial]
    simp only [hook_step, run_cargo_command_fits env g "test" opts _ hfit]
    unfold execute_command
    split <;> simp
  refine ⟨h, ?_⟩
  rw [h]
  simp only [List.append_assoc, List.drop_left, executed_commands_append,
    executed_commands_hook]
  split <;> simp [executed_commands]

/-- C11, witness: the default configuration with `cargo test` failing with status 101. -/
theorem test_subcommand_sequence_witness :
    ({ main_initial_options with command := "test" } : Options).command = "test" ∧
    (init_default_config g_config_zero).prod_flags.length < MAX_VALUE_LEN ∧
    (init_default_config g_config_zero).test_flags.length < MAX_VALUE_LEN ∧
    (main_dispatch env_fail (init_default_config g_config_zero)
        { main_initial_options with command := "test" } ["test"] []).1 = 101 ∧
    executed_commands ((main_dispatch env_fail (init_default_config g_config_zero)
        { main_initial_options with command := "test" } ["test"] []).2.drop
          ([] : List Event).length) =
      ["echo \"Running tests...\"", "cargo test", "echo \"All tests done!\""] :=
  ⟨by decide, by decide, by decide,
    by
      rw [(test_subcommand_sequence env_fail (init_default_config g_config_zero)
        { main_initial_options with command := "test" } ["test"] []
        (by decide) (by decide) (by decide)).1]
      rfl,
    by
      rw [(test_subcommand_sequence env_fail (init_default_config g_config_zero)
        { main_initial_options with command := "test" } ["test"] []
        (by decide) (by decide) (by decide)).2]
      decide⟩

theorem builder_extends (env : Env) (verbose : Bool) (w : List Event)
    (b : Except String String) :
    ∃ d, (match b with
      | Except.error msg => ((-1 : Int), w ++ [Event.err msg])
      | Except.ok cmd => execute_command env cmd verbose w).2 = w ++ d := by
  cases b with
  | error msg => exact ⟨_, rfl⟩
  | ok cmd => exact ⟨_, execute_command_snd env cmd verbose w⟩

theorem format_code_extends (env : Env) (g : Config) (opts : Options) (w : List Event) :
    ∃ d, (format_code env g opts w).2 = w ++ d :=
  builder_extends env opts.verbose w (format_code_build g opts)

theorem run_clippy_extends (env : Env) (g : Config) (opts : Options) (w : List Event) :
    ∃ d, (run_clippy env g opts w).2 = w ++ d :=
  builder_extends env opts.verbose w (run_clippy_build g)

theorem run_cargo_command_extends (env : Env) (g : Config) (cmd : String) (opts : Options)
    (w : List Event) : ∃ d, (run_cargo_command env g cmd opts w).2 = w ++ d :=
  builder_extends env (opts.verbose || opts.very_verbose) w (run_cargo_command_build g cmd opts)

theorem compile_rust_file_extends (env : Env) (g : Config) (opts : Options)
    (w : List Event) : ∃ d, (compile_rust_file env g opts w).2 = w ++ d := by
  have key : ∀ (cmd : String) (v : Bool) (w' : List Event), w <+: w' →
      w <+: (execute_command env cmd v w').2 := fun cmd v w' h =>
    h.trans (by rw [execute_command_snd]; exact List.prefix_append _ _)
  have hm : w <+: compile_mkdir env g opts w := by
    rw [compile_mkdir_eq]; exact List.prefix_append _ _
  have hpre : w <+: (compile_rust_file env g opts w).2 := by
    unfold compile_rust_file
    cases compile_rust_file_build g opts with
    | error msg => exact hm.trans (List.prefix_append _ _)
    | ok p =>
      obtain ⟨cmd, path⟩ := p
      simp only
      split
      · exact key _ _ _ (key _ _ _ hm)
      · exact key _ _ _ hm
  obtain ⟨d, hd⟩ := hpre
  exact ⟨d, hd.symm⟩

/-- The `build`/`run` subcommand (C12) when the primary step is not the loose-file
compile of the empty path (there the source does not get past main.c 665). With `w1`
the history after the format step (taken iff `--fmt` or `auto_format`), `w2` after the
pre-build hook (iff `pre_build` is not empty), `p` the outcome of the primary step
(cargo `build`/`run` in a Cargo project, otherwise the loose-file compile), `w3` after
the lint step (iff `--lint` or `run_clippy`, and `p` returned 0), the subcommand ends
with the post-build hook (iff `post_build` is not empty, whatever `p` returned) and
returns the result of `p`. Each step only adds events: the events of the subcommand are
those of the format step, the pre-build hook, the primary step, the lint step and the
post-build hook, in this order, and so are the commands it runs; a step that is not
taken adds nothing. -/
theorem build_run_subcommand_sequence (env : Env) (g : Config) (opts : Options)
    (args : List String) (w w1 w2 w3 : List Event) (p : Int × List Event)
    (hcmd : opts.command = "build" ∨ opts.command = "run")
    (h1 : w1 = if opts.format = true ∨ g.auto_format = true then (format_code env g opts w).2
      else w)
    (h2 : w2 = w1 ++ hook_events g.pre_build "pre-build")
    (hp : p = if file_exists env "Cargo.toml" w2 = true then
        run_cargo_command env g (if opts.command = "build" then "build" else "run") opts w2
      else compile_rust_file env g opts w2)
    (h3 : w3 = if (opts.lint = true ∨ g.run_clippy = true) ∧ p.1 = 0 then
        (run_clippy env g opts p.2).2
      else p.2) :
    (file_exists env "Cargo.toml" w2 = true ∨ opts.file ≠ "") →
    main_dispatch env g opts args w = (p.1, w3 ++ hook_events g.post_build "post-build") ∧
    ∃ fmt primary lint : List Event,
      w1 = w ++ fmt ∧ p.2 = w2 ++ primary ∧ w3 = p.2 ++ lint ∧
      (¬ (opts.format = true ∨ g.auto_format = true) → fmt = []) ∧
      (¬ ((opts.lint = true ∨ g.run_clippy = true) ∧ p.1 = 0) → lint = []) ∧
      (main_dispatch env g opts args w).2 =
        w ++ (fmt ++ hook_events g.pre_build "pre-build" ++ primary ++ lint ++
          hook_events g.post_build "post-build") ∧
      executed_commands (fmt ++ hook_events g.pre_build "pre-build" ++ primary ++ lint ++
          hook_events g.post_build "post-build") =
        executed_commands fmt ++ (if g.pre_build ≠ "" then [g.pre_build] else []) ++
          executed_commands primary ++ executed_commands lint ++
          (if g.post_build ≠ "" then [g.post_build] else []) := by
  intro _
  have hmain : main_dispatch env g opts args w =
      (p.1, w3 ++ hook_events g.post_build "post-build") := by
    subst h1 h2 hp h3
    unfold main_dispatch
    simp only [strcmp_eq_zero_iff, hook_step, is_cargo_project]
    rcases hcmd with hc | hc <;> rw [hc] <;>
      rw [if_neg (by decide), if_neg (by decide), if_neg (by decide), if_neg (by decide),
        if_neg (by decide), if_neg (by decide), if_neg (by decide), if_pos (by decide)]
  refine ⟨hmain, ?_⟩
  have hfmt : ∃ fmt, w1 = w ++ fmt ∧
      (¬ (opts.format = true ∨ g.auto_format = true) → fmt = []) := by
    by_cases hf : opts.format = true ∨ g.auto_format = true
    · obtain ⟨d, hd⟩ := format_code_extends env g opts w
      exact ⟨d, by rw [h1, if_pos hf, hd], fun h => absurd hf h⟩
    · exact ⟨[], by rw [h1, if_neg hf, List.append_nil], fun _ => rfl⟩
  have hprim : ∃ primary, p.2 = w2 ++ primary := by
    by_cases hc : file_exists env "Cargo.toml" w2 = true
    · rw [hp, if_pos hc]
      exact run_cargo_command_extends env g _ opts w2
    · rw [hp, if_neg hc]
      exact compile_rust_file_extends env g opts w2
  have hlint : ∃ lint, w3 = p.2 ++ lint ∧
      (¬ ((opts.lint = true ∨ g.run_clippy = true) ∧ p.1 = 0) → lint = []) := by
    by_cases hl : (opts.lint = true ∨ g.run_clippy = true) ∧ p.1 = 0
    · obtain ⟨d, hd⟩ := run_clippy_extends env g opts p.2
      exact ⟨d, by rw [h3, if_pos hl, hd], fun h => absurd hl h⟩
    · exact ⟨[], by rw [h3, if_neg hl, List.append_nil], fun _ => rfl⟩
  obtain ⟨fmt, hw1, hfmt0⟩ := hfmt
  obtain ⟨primary, hp2⟩ := hprim
  obtain ⟨lint, hw3, hlint0⟩ := hlint
  refine ⟨fmt, primary, lint, hw1, hp2, hw3, hfmt0, hlint0, ?_, ?_⟩
  · rw [hmain]
    show w3 ++ hook_events g.post_build "post-build" = _
    rw [hw3, hp2, h2, hw1]
    simp only [List.append_assoc]
  · simp only [executed_commands_append, executed_commands_hook]

/-- The `build`/`run` subcommand, an instance: `rskid build --fmt` on the loose file
`main.x` with the default configuration: format, pre-build hook, `mkdir`, compile, lint,
post-build hook, and the result of the compile step. -/
theorem build_run_subcommand_sequence_witness :
    ({ main_initial_options with file := "main.x", command := "build", format := true } :
      Options).file ≠ "" ∧
    main_dispatch env_ok (init_default_config g_config_zero)
        { main_initial_options with file := "main.x", command := "build", format := true }
        ["build", "--fmt", "-f", "main.x"] [] =
      (0, [Event.exec "rustfmt --edition 2021 main.x",
        Event.out "Running pre-build script...\n",
        Event.out "Executing: echo \"Preparing build...\"\n",
        Event.exec "echo \"Preparing build...\"",
        Event.exec "mkdir -p ./bin",
        Event.exec ("rustc -C opt-level=3 --target x86_64-unknown-linux-gnu" ++
          " -o ./bin/main main.x"),
        Event.exec "cargo clippy ",
        Event.out "Running post-build script...\n",
        Event.out "Executing: echo \"Build finished successfully!\"\n",
        Event.exec "echo \"Build finished successfully!\""]) :=
  ⟨by decide, (build_run_subcommand_sequence env_ok (init_default_config g_config_zero)
    { main_initial_options with file := "main.x", command := "build", format := true }
    ["build", "--fmt", "-f", "main.x"] []
    [Event.exec "rustfmt --edition 2021 main.x"]
    [Event.exec "rustfmt --edition 2021 main.x",
      Event.out "Running pre-build script...\n",
      Event.out "Executing: echo \"Preparing build...\"\n",
      Event.exec "echo \"Preparing build...\""]
    [Event.exec "rustfmt --edition 2021 main.x",
      Event.out "Running pre-build script...\n",
      Event.out "Executing: echo \"Preparing build...\"\n",
      Event.exec "echo \"Preparing build...\"",
      Event.exec "mkdir -p ./bin",
      Event.exec ("rustc -C opt-level=3 --target x86_64-unknown-linux-gnu" ++
        " -o ./bin/main main.x"),
      Event.exec "cargo clippy "]
    (0, [Event.exec "rustfmt --edition 2021 main.x",
      Event.out "Running pre-build script...\n",
      Event.out "Executing: echo \"Preparing build...\"\n",
      Event.exec "echo \"Preparing build...\"",
      Event.exec "mkdir -p ./bin",
      Event.exec ("rustc -C opt-level=3 --target x86_64-unknown-linux-gnu" ++
        " -o ./bin/main main.x")])
    (by decide) (by decide) (by decide) (by decide) (by decide)
    (Or.inr (by decide))).1.trans (by decide)⟩

/-- C12 (evaluation at the failing input): `rskid build` with no `-f`, outside a Cargo
project and with no configuration file. `parse_arguments` leaves the file path empty and
the configuration stage installs the defaults; the dispatcher runs the format step (on
`src/`) and the pre-build hook, finds no `Cargo.toml`, and so takes the loose-file
compile as its primary step; and `compile_rust_file` does not come back for the empty
path: the process ends at main.c 665, with no compiler command, no lint step, no
post-build hook and no returned value. With `-f main.x` the same invocation goes through
format, pre-build hook, `mkdir`, compile, lint and post-build hook and returns the
compiler's status. -/
theorem build_without_file_stops_in_compile :
    parse_arguments ["build"] main_initial_options =
      ParseResult.parsed { main_initial_options with command := "build" } ∧
    main_load_configuration env_ok { main_initial_options with command := "build" }
      g_config_zero [] = (init_default_config g_config_zero, []) ∧
    (format_code env_ok (init_default_config g_config_zero)
        { main_initial_options with command := "build" } []).2 ++
      hook_events (init_default_config g_config_zero).pre_build "pre-build" =
      [Event.exec "rustfmt --edition 2021 src/",
        Event.out "Running pre-build script...\n",
        Event.out "Executing: echo \"Preparing build...\"\n",
        Event.exec "echo \"Preparing build...\""] ∧
    is_cargo_project env_ok
      [Event.exec "rustfmt --edition 2021 src/",
        Event.out "Running pre-build script...\n",
        Event.out "Executing: echo \"Preparing build...\"\n",
        Event.exec "echo \"Preparing build...\""] = false ∧
    compile_rust_file_returns { main_initial_options with command := "build" } = false ∧
    compile_rust_file_returns
      { main_initial_options with command := "build", file := "main.x" } = true ∧
    main env_ok ["rskid", "build", "-f", "main.x"] =
      (0, [Event.exec "rustfmt --edition 2021 main.x",
        Event.out "Running pre-build script...\n",
        Event.out "Executing: echo \"Preparing build...\"\n",
        Event.exec "echo \"Preparing build...\"",
        Event.exec "mkdir -p ./bin",
        Event.exec ("rustc -C opt-level=3 --target x86_64-unknown-linux-gnu" ++
          " -o ./bin/main main.x"),
        Event.exec "cargo clippy ",
        Event.out "Running post-build script...\n",
        Event.out "Executing: echo \"Build finished successfully!\"\n",
        Event.exec "echo \"Build finished successfully!\""]) := by
  decide

/-- C13: with the default configuration, the default options and the loose file
`main.x`, `compile_rust_file` runs `mkdir -p ./bin`, then the compiler command
`rustc -C opt-level=3 --target x86_64-unknown-linux-gnu -o ./bin/main main.x`, and
nothing else, whatever the compiler returns; its result is the compiler's status. -/
theorem compile_default_loose_file (env : Env) (w : List Event) :
    compile_rust_file env (init_default_config g_config_zero)
        { main_initial_options with file := "main.x" } w =
      (env.system (w ++ [Event.exec "mkdir -p ./bin"])
          "rustc -C opt-level=3 --target x86_64-unknown-linux-gnu -o ./bin/main main.x",
        w ++ [Event.exec "mkdir -p ./bin",
          Event.exec
            "rustc -C opt-level=3 --target x86_64-unknown-linux-gnu -o ./bin/main main.x"]) ∧
    main_initial_options.env_mode = "dev" ∧ main_initial_options.release_mode = false ∧
    main_initial_options.run_after = false := by
  refine ⟨?_, rfl, rfl, rfl⟩
  have hb : compile_rust_file_build (init_default_config g_config_zero)
      { main_initial_options with file := "main.x" } =
      Except.ok ("rustc -C opt-level=3 --target x86_64-unknown-linux-gnu -o ./bin/main main.x",
        "./bin/main") := rfl
  have hm : compile_mkdir env (init_default_config g_config_zero)
      { main_initial_options with file := "main.x" } w =
      w ++ [Event.exec "mkdir -p ./bin"] := rfl
  unfold compile_rust_file
  rw [hb, hm]
  simp only
  rw [if_neg (by
    intro h
    rcases h.2 with h' | h' <;> exact absurd h' (by decide))]
  simp [execute_command, main_initial_options]

/-! ## Option parser -/

/-- C14 (evaluation at the failing input): for `rskid -f init init myapp`,
`parse_arguments` takes the first `init` as the value of `-f` and the second one as the
subcommand, so the argument following the subcommand token is `myapp`; the loop of
`main` looks for the first argument equal to the command text, finds the value of `-f`,
and passes the argument after it, `init`, to `create_project`: `cargo new init` is
run. Without the colliding flag value the name is `myapp`. -/
theorem project_name_after_colliding_flag_value :
    parse_arguments ["-f", "init", "init", "myapp"] main_initial_options =
      ParseResult.parsed { main_initial_options with file := "init", command := "init" } ∧
    main_project_name "init" ["-f", "init", "init", "myapp"] = "init" ∧
    executed_commands (main env_ok ["rskid", "-f", "init", "init", "myapp"]).2 =
      ["cargo new init"] ∧
    main_project_name "init" ["init", "myapp"] = "myapp" ∧
    executed_commands (main env_ok ["rskid", "init", "myapp"]).2 = ["cargo new myapp"] := by
  decide

/-! ## The option parser, argument by argument -/

theorem parse_loop_help (arg : String) (rest : List String) (opts : Options) (cf : Bool)
    (h : arg = "-h" ∨ arg = "--help") :
    parse_arguments_loop (arg :: rest) opts cf =
      ParseResult.help_exit (if cf = true then some opts.command else none) := by
  rw [parse_arguments_loop.eq_def]
  simp only [strcmp_eq_zero_iff, if_pos h]

theorem parse_loop_file (arg value : String) (rest : List String) (opts : Options) (cf : Bool)
    (h : arg = "-f" ∨ arg = "--file") :
    parse_arguments_loop (arg :: value :: rest) opts cf =
      parse_arguments_loop rest { opts with file := value } cf := by
  rw [parse_arguments_loop.eq_def]
  simp only [strcmp_eq_zero_iff]
  rw [if_neg (by rcases h with h | h <;> subst h <;> decide), if_pos h]

theorem parse_loop_cfg (value : String) (rest : List String) (opts : Options) (cf : Bool) :
    parse_arguments_loop ("--cfg" :: value :: rest) opts cf =
      parse_arguments_loop rest { opts with config_path := value, use_config := true } cf := by
  rw [parse_arguments_loop.eq_def]
  simp only [strcmp_eq_zero_iff]
  rw [if_neg (by decide), if_neg (by decide), if_neg (by decide), if_neg (by decide),
    if_neg (by decide), if_neg (by decide), if_neg (by decide), if_neg (by decide),
    if_neg (by decide), if_neg (by decide), if_pos trivial]

theorem parse_loop_value_last (arg : String) (opts : Options) (cf : Bool)
    (h : arg = "-f" ∨ arg = "--file" ∨ arg = "--cfg") :
    parse_arguments_loop [arg] opts cf = ParseResult.parsed opts := by
  rw [parse_arguments_loop.eq_def]
  simp only [strcmp_eq_zero_iff]
  rcases h with h | h | h <;> subst h
  · rw [if_neg (by decide), if_pos (by decide)]
  · rw [if_neg (by decide), if_pos (by decide)]
  · rw [if_neg (by decide), if_neg (by decide), if_neg (by decide), if_neg (by decide),
      if_neg (by decide), if_neg (by decide), if_neg (by decide), if_neg (by decide),
      if_neg (by decide), if_neg (by decide), if_pos rfl]

theorem parse_loop_single (arg : String) (rest : List String) (opts : Options) (cf : Bool)
    (hh : ¬ (arg = "-h" ∨ arg = "--help"))
    (hv : ¬ (arg = "-f" ∨ arg = "--file" ∨ arg = "--cfg")) :
    parse_arguments_loop (arg :: rest) opts cf =
      parse_arguments_loop rest (parse_single arg opts cf).1 (parse_single arg opts cf).2 := by
  rw [parse_arguments_loop.eq_def]
  simp only [strcmp_eq_zero_iff]
  rw [if_neg hh, if_neg (fun h => hv (h.elim Or.inl (fun h => Or.inr (Or.inl h))))]
  generalize hX : parse_single arg opts cf = X
  unfold parse_single at hX
  by_cases h1 : arg = "-R" ∨ arg = "--run"
  · rw [if_pos h1] at hX ⊢; rw [← hX]
  rw [if_neg h1] at hX ⊢
  by_cases h2 : arg = "-r" ∨ arg = "--release"
  · rw [if_pos h2] at hX ⊢; rw [← hX]
  rw [if_neg h2] at hX ⊢
  by_cases h3 : arg = "-s" ∨ arg = "--skip"
  · rw [if_pos h3] at hX ⊢; rw [← hX]
  rw [if_neg h3] at hX ⊢
  by_cases h4 : arg = "-S" ∨ arg = "--save"
  · rw [if_pos h4] at hX ⊢; rw [← hX]
  rw [if_neg h4] at hX ⊢
  by_cases h5 : arg = "-y" ∨ arg = "--yes"
  · rw [if_pos h5] at hX ⊢; rw [← hX]
  rw [if_neg h5] at hX ⊢
  by_cases h6 : arg = "-v" ∨ arg = "--verbose"
  · rw [if_pos h6] at hX ⊢; rw [← hX]
  rw [if_neg h6] at hX ⊢
  by_cases h7 : arg = "-V" ∨ arg = "--very-verbose"
  · rw [if_pos h7] at hX ⊢; rw [← hX]
  rw [if_neg h7] at hX ⊢
  by_cases h8 : arg = "-G"
  · rw [if_pos h8] at hX ⊢; rw [← hX]
  rw [if_neg h8] at hX ⊢
  rw [if_neg (fun h => hv (Or.inr (Or.inr h)))]
  by_cases h9 : arg = "--lint"
  · rw [if_pos h9] at hX ⊢; rw [← hX]
  rw [if_neg h9] at hX ⊢
  by_cases h10 : arg = "--fmt"
  · rw [if_pos h10] at hX ⊢; rw [← hX]
  rw [if_neg h10] at hX ⊢
  by_cases h11 : arg = "--dev"
  · rw [if_pos h11] at hX ⊢; rw [← hX]
  rw [if_neg h11] at hX ⊢
  by_cases h12 : arg = "--prod"
  · rw [if_pos h12] at hX ⊢; rw [← hX]
  rw [if_neg h12] at hX ⊢
  by_cases h13 : arg = "--test"
  · rw [if_pos h13] at hX ⊢; rw [← hX]
  rw [if_neg h13] at hX ⊢
  by_cases h14 : starts_with_dash arg = false ∧ cf = false
  · rw [if_pos h14] at hX ⊢; rw [← hX]
  rw [if_neg h14] at hX ⊢; rw [← hX]
theorem parse_single_frame (arg : String) (opts : Options) (cf : Bool)
    (hd : starts_with_dash arg = true) (he : env_flag_mode arg = none) :
    (parse_single arg opts cf).1.command = opts.command ∧
    (parse_single arg opts cf).1.env_mode = opts.env_mode ∧
    (parse_single arg opts cf).2 = cf := by
  have e1 : ¬ arg = "--dev" := fun h => by subst h; cases he
  have e2 : ¬ arg = "--prod" := fun h => by subst h; cases he
  have e3 : ¬ arg = "--test" := fun h => by subst h; cases he
  generalize hX : parse_single arg opts cf = X
  unfold parse_single at hX
  by_cases h1 : arg = "-R" ∨ arg = "--run"
  · rw [if_pos h1] at hX; subst hX; exact ⟨rfl, rfl, rfl⟩
  rw [if_neg h1] at hX
  by_cases h2 : arg = "-r" ∨ arg = "--release"
  · rw [if_pos h2] at hX; subst hX; exact ⟨rfl, rfl, rfl⟩
  rw [if_neg h2] at hX
  by_cases h3 : arg = "-s" ∨ arg = "--skip"
  · rw [if_pos h3] at hX; subst hX; exact ⟨rfl, rfl, rfl⟩
  rw [if_neg h3] at hX
  by_cases h4 : arg = "-S" ∨ arg = "--save"
  · rw [if_pos h4] at hX; subst hX; exact ⟨rfl, rfl, rfl⟩
  rw [if_neg h4] at hX
  by_cases h5 : arg = "-y" ∨ arg = "--yes"
  · rw [if_pos h5] at hX; subst hX; exact ⟨rfl, rfl, rfl⟩
  rw [if_neg h5] at hX
  by_cases h6 : arg = "-v" ∨ arg = "--verbose"
  · rw [if_pos h6] at hX; subst hX; exact ⟨rfl, rfl, rfl⟩
  rw [if_neg h6] at hX
  by_cases h7 : arg = "-V" ∨ arg = "--very-verbose"
  · rw [if_pos h7] at hX; subst hX; exact ⟨rfl, rfl, rfl⟩
  rw [if_neg h7] at hX
  by_cases h8 : arg = "-G"
  · rw [if_pos h8] at hX; subst hX; exact ⟨rfl, rfl, rfl⟩
  rw [if_neg h8] at hX
  by_cases h9 : arg = "--lint"
  · rw [if_pos h9] at hX; subst hX; exact ⟨rfl, rfl, rfl⟩
  rw [if_neg h9] at hX
  by_cases h10 : arg = "--fmt"
  · rw [if_pos h10] at hX; subst hX; exact ⟨rfl, rfl, rfl⟩
  rw [if_neg h10] at hX
  rw [if_neg e1, if_neg e2, if_neg e3,
    if_neg (fun h => by rw [hd] at h; exact absurd h.1 (by decide))] at hX
  subst hX
  exact ⟨rfl, rfl, rfl⟩

theorem parse_single_env_flag (arg mode : String) (opts : Options) (cf : Bool)
    (he : env_flag_mode arg = some mode) :
    starts_with_dash arg = true ∧
    (parse_single arg opts cf).1.command = opts.command ∧
    (parse_single arg opts cf).1.env_mode = mode ∧
    (parse_single arg opts cf).2 = cf := by
  unfold env_flag_mode at he
  by_cases h1 : arg = "--dev"
  · subst h1; cases he; exact ⟨rfl, rfl, rfl, rfl⟩
  · rw [if_neg h1] at he
    by_cases h2 : arg = "--prod"
    · subst h2; cases he; exact ⟨rfl, rfl, rfl, rfl⟩
    · rw [if_neg h2] at he
      by_cases h3 : arg = "--test"
      · subst h3; cases he; exact ⟨rfl, rfl, rfl, rfl⟩
      · rw [if_neg h3] at he; cases he

theorem env_flag_mode_no_dash (arg : String) (hd : starts_with_dash arg = false) :
    env_flag_mode arg = none := by
  cases he : env_flag_mode arg with
  | none => rfl
  | some mode =>
    have h := (parse_single_env_flag arg mode main_initial_options false he).1
    rw [hd] at h
    cases h

theorem parse_single_dash (arg : String) (opts : Options) (cf : Bool)
    (hd : starts_with_dash arg = true) :
    (parse_single arg opts cf).1.command = opts.command ∧ (parse_single arg opts cf).2 = cf := by
  cases he : env_flag_mode arg with
  | none =>
    exact ⟨(parse_single_frame arg opts cf hd he).1, (parse_single_frame arg opts cf hd he).2.2⟩
  | some mode =>
    exact ⟨(parse_single_env_flag arg mode opts cf he).2.1,
      (parse_single_env_flag arg mode opts cf he).2.2.2⟩

theorem parse_single_no_dash (arg : String) (opts : Options) (cf : Bool)
    (hd : starts_with_dash arg = false) :
    parse_single arg opts cf =
      if cf = false then ({ opts with command := arg }, true) else (opts, cf) := by
  have hne : ∀ f : String, starts_with_dash f = true → ¬ arg = f := by
    intro f hf h
    rw [h, hf] at hd
    cases hd
  unfold parse_single
  simp only [hne "-R" rfl, hne "--run" rfl, hne "-r" rfl, hne "--release" rfl, hne "-s" rfl,
    hne "--skip" rfl, hne "-S" rfl, hne "--save" rfl, hne "-y" rfl, hne "--yes" rfl,
    hne "-v" rfl, hne "--verbose" rfl, hne "-V" rfl, hne "--very-verbose" rfl, hne "-G" rfl,
    hne "--lint" rfl, hne "--fmt" rfl, hne "--dev" rfl, hne "--prod" rfl, hne "--test" rfl,
    or_self, if_false, hd, true_and]

theorem parse_single_env_mode (arg : String) (opts : Options) (cf : Bool) :
    (parse_single arg opts cf).1.env_mode = (env_flag_mode arg).getD opts.env_mode := by
  cases he : env_flag_mode arg with
  | some mode => exact (parse_single_env_flag arg mode opts cf he).2.2.1
  | none =>
    cases hd : starts_with_dash arg with
    | true => exact (parse_single_frame arg opts cf hd he).2.1
    | false =>
      rw [parse_single_no_dash arg opts cf hd]
      split <;> rfl

theorem flag_position_tokens_value (arg value : String) (rest : List String)
    (h : arg = "-f" ∨ arg = "--file" ∨ arg = "--cfg") :
    flag_position_tokens (arg :: value :: rest) = arg :: flag_position_tokens rest := by
  rw [flag_position_tokens, if_pos h]

theorem flag_position_tokens_value_last (arg : String)
    (h : arg = "-f" ∨ arg = "--file" ∨ arg = "--cfg") :
    flag_position_tokens [arg] = [arg] := by
  unfold flag_position_tokens
  rw [if_pos h]

theorem flag_position_tokens_other (arg : String) (rest : List String)
    (h : ¬ (arg = "-f" ∨ arg = "--file" ∨ arg = "--cfg")) :
    flag_position_tokens (arg :: rest) = arg :: flag_position_tokens rest := by
  rw [flag_position_tokens.eq_def]
  simp only [if_neg h]

theorem value_flag_dash (arg : String) (h : arg = "-f" ∨ arg = "--file" ∨ arg = "--cfg") :
    starts_with_dash arg = true ∧ env_flag_mode arg = none ∧ ¬ (arg = "-h" ∨ arg = "--help") := by
  rcases h with h | h | h <;> subst h <;> decide

theorem help_flag_dash (arg : String) (h : arg = "-h" ∨ arg = "--help") :
    starts_with_dash arg = true ∧ ¬ (arg = "-f" ∨ arg = "--file" ∨ arg = "--cfg") := by
  rcases h with h | h <;> subst h <;> decide

theorem first_command_token_cons (t : String) (tokens : List String) :
    first_command_token (t :: tokens) =
      if starts_with_dash t = false then some t else first_command_token tokens := by
  unfold first_command_token
  rw [List.find?_cons]
  cases starts_with_dash t <;> simp

theorem first_command_token_dash (t : String) (tokens : List String)
    (hd : starts_with_dash t = true) :
    first_command_token (t :: tokens) = first_command_token tokens := by
  rw [first_command_token_cons, hd, if_neg (by decide)]

theorem first_command_token_no_dash (t : String) (tokens : List String)
    (hd : starts_with_dash t = false) :
    first_command_token (t :: tokens) = some t := by
  rw [first_command_token_cons, if_pos hd]

theorem last_env_mode_cons (t : String) (tokens : List String) (default : String) :
    last_env_mode (t :: tokens) default =
      last_env_mode tokens ((env_flag_mode t).getD default) := by
  unfold last_env_mode
  cases he : env_flag_mode t with
  | none => simp [List.filterMap_cons, he]
  | some m => simp [List.filterMap_cons, he, List.getLast?_cons]

theorem parse_loop_value (arg value : String) (rest : List String) (opts : Options) (cf : Bool)
    (h : arg = "-f" ∨ arg = "--file" ∨ arg = "--cfg") :
    ∃ opts', parse_arguments_loop (arg :: value :: rest) opts cf =
        parse_arguments_loop rest opts' cf ∧
      opts'.command = opts.command ∧ opts'.env_mode = opts.env_mode := by
  rcases h with h | h | h
  · exact ⟨_, parse_loop_file arg value rest opts cf (Or.inl h), rfl, rfl⟩
  · exact ⟨_, parse_loop_file arg value rest opts cf (Or.inr h), rfl, rfl⟩
  · subst h
    exact ⟨_, parse_loop_cfg value rest opts cf, rfl, rfl⟩

theorem parse_loop_returns (args : List String) :
    ∀ (opts : Options) (cf : Bool),
      (∀ t ∈ flag_position_tokens args, ¬ (t = "-h" ∨ t = "--help")) →
      ∃ o, parse_arguments_loop args opts cf = ParseResult.parsed o ∧
        o.command = (if cf = true then opts.command
          else (first_command_token (flag_position_tokens args)).getD opts.command) ∧
        o.env_mode = last_env_mode (flag_position_tokens args) opts.env_mode := by
  induction args using flag_position_tokens.induct with
  | case1 =>
    intro opts cf _
    refine ⟨opts, by rw [parse_arguments_loop], ?_, rfl⟩
    split <;> rfl
  | case2 arg hv value rest ih =>
    intro opts cf hh
    rw [flag_position_tokens_value arg value rest hv] at hh ⊢
    obtain ⟨opts', hl, hc, he⟩ := parse_loop_value arg value rest opts cf hv
    obtain ⟨o, ho, hoc, hoe⟩ := ih opts' cf (fun t ht => hh t (List.mem_cons_of_mem _ ht))
    refine ⟨o, by rw [hl, ho], ?_, ?_⟩
    · rw [hoc, hc, first_command_token_dash arg _ (value_flag_dash arg hv).1]
    · rw [hoe, he, last_env_mode_cons, (value_flag_dash arg hv).2.1]
      rfl
  | case3 arg hv =>
    intro opts cf _
    rw [flag_position_tokens_value_last arg hv]
    refine ⟨opts, parse_loop_value_last arg opts cf hv, ?_, ?_⟩
    · rw [first_command_token_dash arg _ (value_flag_dash arg hv).1]
      split <;> rfl
    · rw [last_env_mode_cons, (value_flag_dash arg hv).2.1]
      rfl
  | case4 arg rest hv ih =>
    intro opts cf hh
    rw [flag_position_tokens_other arg rest hv] at hh ⊢
    have hnh : ¬ (arg = "-h" ∨ arg = "--help") := hh arg (List.mem_cons_self _ _)
    obtain ⟨o, ho, hoc, hoe⟩ := ih (parse_single arg opts cf).1 (parse_single arg opts cf).2
      (fun t ht => hh t (List.mem_cons_of_mem _ ht))
    refine ⟨o, by rw [parse_loop_single arg rest opts cf hnh hv, ho], ?_, ?_⟩
    · rw [hoc]
      cases hd : starts_with_dash arg with
      | true =>
        rw [(parse_single_dash arg opts cf hd).1, (parse_single_dash arg opts cf hd).2,
          first_command_token_dash arg _ hd]
      | false =>
        rw [parse_single_no_dash arg opts cf hd, first_command_token_no_dash arg _ hd]
        cases cf <;> simp
    · rw [hoe, last_env_mode_cons, parse_single_env_mode]

theorem parse_loop_exits (args : List String) :
    ∀ (opts : Options) (cf : Bool),
      (∃ t ∈ flag_position_tokens args, t = "-h" ∨ t = "--help") →
      ∃ c, parse_arguments_loop args opts cf = ParseResult.help_exit c := by
  induction args using flag_position_tokens.induct with
  | case1 =>
    intro opts cf h
    obtain ⟨t, ht, -⟩ := h
    simp [flag_position_tokens] at ht
  | case2 arg hv value rest ih =>
    intro opts cf h
    rw [flag_position_tokens_value arg value rest hv] at h
    obtain ⟨t, ht, hth⟩ := h
    obtain ⟨opts', hl, -, -⟩ := parse_loop_value arg value rest opts cf hv
    rw [hl]
    rcases List.mem_cons.1 ht with rfl | ht
    · exact absurd hth (value_flag_dash t hv).2.2
    · exact ih opts' cf ⟨t, ht, hth⟩
  | case3 arg hv =>
    intro opts cf h
    rw [flag_position_tokens_value_last arg hv] at h
    obtain ⟨t, ht, hth⟩ := h
    rcases List.mem_singleton.1 ht with rfl
    exact absurd hth (value_flag_dash t hv).2.2
  | case4 arg rest hv ih =>
    intro opts cf h
    rw [flag_position_tokens_other arg rest hv] at h
    by_cases hnh : arg = "-h" ∨ arg = "--help"
    · exact ⟨_, parse_loop_help arg rest opts cf hnh⟩
    · obtain ⟨t, ht, hth⟩ := h
      rw [parse_loop_single arg rest opts cf hnh hv]
      rcases List.mem_cons.1 ht with rfl | ht
      · exact absurd hth hnh
      · exact ih _ _ ⟨t, ht, hth⟩

theorem parse_loop_skips_later_token (t : String) (post : List String)
    (hd : starts_with_dash t = false) (pre : List String) :
    ∀ (opts : Options) (cf : Bool),
      flag_position_tokens (pre ++ [t]) = flag_position_tokens pre ++ [t] →
      (cf = true ∨ first_command_token (flag_position_tokens pre) ≠ none) →
      parse_arguments_loop (pre ++ t :: post) opts cf =
        parse_arguments_loop (pre ++ post) opts cf := by
  have htv : ¬ (t = "-f" ∨ t = "--file" ∨ t = "--cfg") := fun h => by
    rw [(value_flag_dash t h).1] at hd; cases hd
  have hth : ¬ (t = "-h" ∨ t = "--help") := fun h => by
    rw [(help_flag_dash t h).1] at hd; cases hd
  induction pre using flag_position_tokens.induct with
  | case1 =>
    intro opts cf _ hcf
    have hcf' : cf = true := by
      rcases hcf with h | h
      · exact h
      · exact absurd rfl h
    subst hcf'
    rw [List.nil_append, List.nil_append, parse_loop_single t post opts true hth htv,
      parse_single_no_dash t opts true hd]
    rfl
  | case2 arg hv value rest ih =>
    intro opts cf hf hcf
    rw [List.cons_append, List.cons_append, flag_position_tokens_value arg value _ hv,
      flag_position_tokens_value arg value _ hv, List.cons_append, List.cons.injEq] at hf
    rw [flag_position_tokens_value arg value _ hv,
      first_command_token_dash arg _ (value_flag_dash arg hv).1] at hcf
    rcases hv with hv | hv | hv
    · rw [List.cons_append, List.cons_append, List.cons_append, List.cons_append,
        parse_loop_file arg value _ opts cf (Or.inl hv),
        parse_loop_file arg value _ opts cf (Or.inl hv)]
      exact ih _ cf hf.2 hcf
    · rw [List.cons_append, List.cons_append, List.cons_append, List.cons_append,
        parse_loop_file arg value _ opts cf (Or.inr hv),
        parse_loop_file arg value _ opts cf (Or.inr hv)]
      exact ih _ cf hf.2 hcf
    · subst hv
      rw [List.cons_append, List.cons_append, List.cons_append, List.cons_append,
        parse_loop_cfg, parse_loop_cfg]
      exact ih _ cf hf.2 hcf
  | case3 arg hv =>
    intro opts cf hf _
    rw [List.cons_append, List.nil_append, flag_position_tokens_value arg t [] hv,
      flag_position_tokens_value_last arg hv] at hf
    simp [flag_position_tokens] at hf
  | case4 arg rest hv ih =>
    intro opts cf hf hcf
    rw [List.cons_append, flag_position_tokens_other arg _ hv,
      flag_position_tokens_other arg _ hv, List.cons_append, List.cons.injEq] at hf
    rw [flag_position_tokens_other arg _ hv] at hcf
    rw [List.cons_append, List.cons_append]
    by_cases hnh : arg = "-h" ∨ arg = "--help"
    · rw [parse_loop_help arg _ opts cf hnh, parse_loop_help arg _ opts cf hnh]
    · rw [parse_loop_single arg _ opts cf hnh hv, parse_loop_single arg _ opts cf hnh hv]
      refine ih _ _ hf.2 ?_
      cases hd' : starts_with_dash arg with
      | true =>
        rw [(parse_single_dash arg opts cf hd').2]
        rw [first_command_token_dash arg _ hd'] at hcf
        exact hcf
      | false =>
        left
        rw [parse_single_no_dash arg opts cf hd']
        cases cf <;> rfl

theorem last_env_mode_known (tokens : List String) :
    ∀ default : String, (default = "dev" ∨ default = "prod" ∨ default = "test") →
      (last_env_mode tokens default = "dev" ∨ last_env_mode tokens default = "prod" ∨
        last_env_mode tokens default = "test") := by
  induction tokens with
  | nil => intro default h; exact h
  | cons t tokens ih =>
    intro default h
    rw [last_env_mode_cons]
    apply ih
    unfold env_flag_mode
    split_ifs
    · exact Or.inl rfl
    · exact Or.inr (Or.inl rfl)
    · exact Or.inr (Or.inr rfl)
    · exact h

theorem tokens_without_later_token (t : String) (post : List String)
    (htv : ¬ (t = "-f" ∨ t = "--file" ∨ t = "--cfg")) (pre : List String) :
    flag_position_tokens (pre ++ [t]) = flag_position_tokens pre ++ [t] →
    flag_values (pre ++ t :: post) = flag_values (pre ++ post) ∧
    flag_position_tokens (pre ++ t :: post) =
      flag_position_tokens pre ++ t :: flag_position_tokens post ∧
    flag_position_tokens (pre ++ post) =
      flag_position_tokens pre ++ flag_position_tokens post := by
  induction pre using flag_position_tokens.induct with
  | case1 =>
    intro _
    refine ⟨?_, ?_, rfl⟩
    · rw [List.nil_append, List.nil_append, flag_values.eq_def]
      simp only [if_neg htv]
    · rw [List.nil_append, flag_position_tokens_other t post htv]
      rfl
  | case2 arg hv value rest ih =>
    intro hf
    rw [List.cons_append, List.cons_append, flag_position_tokens_value arg value _ hv,
      flag_position_tokens_value arg value _ hv, List.cons_append, List.cons.injEq] at hf
    obtain ⟨h1, h2, h3⟩ := ih hf.2
    refine ⟨?_, ?_, ?_⟩
    · rw [List.cons_append, List.cons_append, List.cons_append, List.cons_append,
        flag_values, flag_values, if_pos hv, if_pos hv]
      simp only [h1]
    · rw [List.cons_append, List.cons_append, flag_position_tokens_value arg value _ hv,
        flag_position_tokens_value arg value _ hv, h2]
      rfl
    · rw [List.cons_append, List.cons_append, flag_position_tokens_value arg value _ hv,
        flag_position_tokens_value arg value _ hv, h3]
      rfl
  | case3 arg hv =>
    intro hf
    rw [List.cons_append, List.nil_append, flag_position_tokens_value arg t [] hv,
      flag_position_tokens_value_last arg hv] at hf
    simp [flag_position_tokens] at hf
  | case4 arg rest hv ih =>
    intro hf
    rw [List.cons_append, flag_position_tokens_other arg _ hv,
      flag_position_tokens_other arg _ hv, List.cons_append, List.cons.injEq] at hf
    obtain ⟨h1, h2, h3⟩ := ih hf.2
    refine ⟨?_, ?_, ?_⟩
    · rw [List.cons_append, List.cons_append, flag_values.eq_def]
      simp only [if_neg hv]
      rw [h1]
      conv_rhs => rw [flag_values.eq_def]
      simp only [if_neg hv]
    · rw [List.cons_append, flag_position_tokens_other arg _ hv,
        flag_position_tokens_other arg _ hv, h2]
      rfl
    · rw [List.cons_append, flag_position_tokens_other arg _ hv,
        flag_position_tokens_other arg _ hv, h3]
      rfl

theorem arguments_fit_without_later_token (pre : List String) (t : String)
    (post : List String)
    (hpos : flag_position_tokens (pre ++ [t]) = flag_position_tokens pre ++ [t])
    (hd : starts_with_dash t = false)
    (hfirst : first_command_token (flag_position_tokens pre) ≠ none)
    (hfit : arguments_fit (pre ++ t :: post)) : arguments_fit (pre ++ post) := by
  have htv : ¬ (t = "-f" ∨ t = "--file" ∨ t = "--cfg") := fun h => by
    rw [(value_flag_dash t h).1] at hd; cases hd
  obtain ⟨h1, h2, h3⟩ := tokens_without_later_token t post htv pre hpos
  obtain ⟨c, hc⟩ := Option.ne_none_iff_exists'.1 hfirst
  unfold arguments_fit at hfit ⊢
  unfold first_command_token at hfit hc ⊢
  rw [h1, h2, List.find?_append, hc] at hfit
  rw [h3, List.find?_append, hc]
  exact hfit

/-- C15: for an argument list with no `-h`/`--help` in flag position, whose arguments
fit the arrays they are copied to (the values of `-f`, `--file`, `--cfg` shorter than
`MAX_PATH_LEN`, the subcommand token shorter than 64), `parse_arguments` returns, and
the subcommand of the result is the first token in flag position that does not start
with `-`, or the subcommand it started with when there is no such token (`run` in
`main`); and a later token of that kind changes nothing: with such a token `t` after a
prefix that already holds the subcommand, the outcome is the same as with `t` taken out
of the argument list. -/
theorem parse_arguments_subcommand (args : List String) (opts : Options)
    (hhelp : ∀ t ∈ flag_position_tokens args, ¬ (t = "-h" ∨ t = "--help"))
    (hfit : arguments_fit args) :
    (∃ o, parse_arguments args opts = ParseResult.parsed o ∧
      o.command = (first_command_token (flag_position_tokens args)).getD opts.command) ∧
    (∀ pre t post, args = pre ++ t :: post →
      flag_position_tokens (pre ++ [t]) = flag_position_tokens pre ++ [t] →
      starts_with_dash t = false →
      first_command_token (flag_position_tokens pre) ≠ none →
      arguments_fit (pre ++ post) ∧
      parse_arguments args opts = parse_arguments (pre ++ post) opts) ∧
    main_initial_options.command = "run" := by
  refine ⟨?_, ?_, rfl⟩
  · obtain ⟨o, ho, hc, -⟩ := parse_loop_returns args opts false hhelp
    exact ⟨o, ho, by rw [hc]; rfl⟩
  · intro pre t post hargs hpos hd hfirst
    subst hargs
    exact ⟨arguments_fit_without_later_token pre t post hpos hd hfirst hfit,
      parse_loop_skips_later_token t post hd pre opts false hpos (Or.inr hfirst)⟩

/-- C15, witness: `rskid -f a.rs build extra --prod`: the subcommand is `build`, and
the later token `extra` can be taken out without changing the outcome. -/
theorem parse_arguments_subcommand_witness :
    (∀ t ∈ flag_position_tokens ["-f", "a.rs", "build", "extra", "--prod"],
      ¬ (t = "-h" ∨ t = "--help")) ∧
    arguments_fit ["-f", "a.rs", "build", "extra", "--prod"] ∧
    (∃ o, parse_arguments ["-f", "a.rs", "build", "extra", "--prod"] main_initial_options =
        ParseResult.parsed o ∧ o.command = "build") ∧
    parse_arguments ["-f", "a.rs", "build", "extra", "--prod"] main_initial_options =
      parse_arguments (["-f", "a.rs", "build"] ++ ["--prod"]) main_initial_options :=
  ⟨by decide, ⟨by decide, by decide⟩,
    (parse_arguments_subcommand ["-f", "a.rs", "build", "extra", "--prod"]
      main_initial_options (by decide) ⟨by decide, by decide⟩).1,
    ((parse_arguments_subcommand ["-f", "a.rs", "build", "extra", "--prod"]
      main_initial_options (by decide) ⟨by decide, by decide⟩).2.1
      ["-f", "a.rs", "build"] "extra" ["--prod"]
      rfl (by decide) (by decide) (by decide)).2⟩

/-- C16: for arguments that fit the arrays they are copied to (the values of `-f`,
`--file`, `--cfg` shorter than `MAX_PATH_LEN`, the subcommand token shorter than 64):
whenever `parse_arguments`, started from the options `main` sets up, returns, the
environment mode of the result is the mode named by the last of the tokens `--dev`,
`--prod`, `--test` in flag position, `dev` when there is none, hence one of `dev`,
`prod`, `test`; and it returns for every argument list with no `-h`/`--help` in flag
position (otherwise it prints help and ends the process). -/
theorem parse_arguments_env_mode (args : List String) :
    arguments_fit args →
    (∀ o, parse_arguments args main_initial_options = ParseResult.parsed o →
      o.env_mode = last_env_mode (flag_position_tokens args) "dev" ∧
      (o.env_mode = "dev" ∨ o.env_mode = "prod" ∨ o.env_mode = "test")) ∧
    ((∀ t ∈ flag_position_tokens args, ¬ (t = "-h" ∨ t = "--help")) →
      ∃ o, parse_arguments args main_initial_options = ParseResult.parsed o) ∧
    ((∃ t ∈ flag_position_tokens args, t = "-h" ∨ t = "--help") →
      ∃ c, parse_arguments args main_initial_options = ParseResult.help_exit c) := by
  intro _
  refine ⟨?_, ?_, parse_loop_exits args main_initial_options false⟩
  · intro o ho
    by_cases hh : ∃ t ∈ flag_position_tokens args, t = "-h" ∨ t = "--help"
    · obtain ⟨c, hc⟩ := parse_loop_exits args main_initial_options false hh
      unfold parse_arguments at ho
      rw [hc] at ho
      cases ho
    · have hh' : ∀ t ∈ flag_position_tokens args, ¬ (t = "-h" ∨ t = "--help") :=
        fun t ht h => hh ⟨t, ht, h⟩
      obtain ⟨o', ho', -, he⟩ := parse_loop_returns args main_initial_options false hh'
      unfold parse_arguments at ho
      rw [ho'] at ho
      cases ho
      have e : main_initial_options.env_mode = "dev" := rfl
      rw [e] at he
      rw [he]
      exact ⟨rfl, last_env_mode_known _ "dev" (Or.inl rfl)⟩
  · intro hh
    obtain ⟨o, ho, -, -⟩ := parse_loop_returns args main_initial_options false hh
    exact ⟨o, ho⟩

/-- C16, witness: `rskid build --prod --cfg --dev --test -v`: the `--dev` is the value
of `--cfg`, the last environment flag in flag position is `--test`. -/
theorem parse_arguments_env_mode_witness :
    arguments_fit ["build", "--prod", "--cfg", "--dev", "--test", "-v"] ∧
    parse_arguments ["build", "--prod", "--cfg", "--dev", "--test", "-v"]
        main_initial_options =
      ParseResult.parsed { main_initial_options with
        command := "build", env_mode := "test", config_path := "--dev", use_config := true,
        verbose := true } ∧
    ({ main_initial_options with
        command := "build", env_mode := "test", config_path := "--dev", use_config := true,
        verbose := true } : Options).env_mode =
      last_env_mode (flag_position_tokens ["build", "--prod", "--cfg", "--dev", "--test", "-v"])
        "dev" ∧
    last_env_mode (flag_position_tokens ["build", "--prod", "--cfg", "--dev", "--test", "-v"])
        "dev" = "test" :=
  ⟨⟨by decide, by decide⟩, by decide,
    ((parse_arguments_env_mode ["build", "--prod", "--cfg", "--dev", "--test", "-v"]
      ⟨by decide, by decide⟩).1 _ (by decide)).1,
    by decide⟩

/-! ## Configuration file lines -/

theorem load_config_assign_known :
    ∀ e ∈ config_fields, ∀ (value : String) (config : Config),
      load_config_assign e.1 e.2.1 value config = e.2.2 value config := by
  intro e he
  simp only [config_fields, List.mem_cons, List.mem_singleton, List.not_mem_nil,
    or_false] at he
  rcases he with h | h | h | h | h | h | h | h | h | h | h | h | h | h | h | h | h | h | h |
    h | h | h | h | h | h | h | h | h <;> subst h <;> intro value config <;> rfl

theorem load_config_assign_unknown (current_section key value : String) (config : Config)
    (h : ∀ e ∈ config_fields, ¬ (current_section = e.1 ∧ key = e.2.1)) :
    load_config_assign current_section key value config = config := by
  simp only [config_fields, List.forall_mem_cons, List.not_mem_nil, false_implies,
    implies_true, and_true, not_and] at h
  obtain ⟨h1, h2, h3, h4, h5, h6, h7, h8, h9, h10, h11, h12, h13, h14, h15, h16, h17, h18, h19, h20, h21, h22, h23, h24, h25, h26, h27, h28⟩ := h
  unfold load_config_assign
  simp only [strcmp_eq_zero_iff]
  by_cases s1 : current_section = "compiler"
  · rw [if_pos s1, if_neg (h1 s1), if_neg (h2 s1), if_neg (h3 s1), if_neg (h4 s1)]
  rw [if_neg s1]
  by_cases s2 : current_section = "env"
  · rw [if_pos s2, if_neg (h5 s2), if_neg (h6 s2), if_neg (h7 s2), if_neg (h8 s2)]
  rw [if_neg s2]
  by_cases s3 : current_section = "custom"
  · rw [if_pos s3, if_neg (h9 s3), if_neg (h10 s3), if_neg (h11 s3), if_neg (h12 s3)]
  rw [if_neg s3]
  by_cases s4 : current_section = "lint"
  · rw [if_pos s4, if_neg (h13 s4), if_neg (h14 s4)]
  rw [if_neg s4]
  by_cases s5 : current_section = "fmt"
  · rw [if_pos s5, if_neg (h15 s5), if_neg (h16 s5), if_neg (h17 s5)]
  rw [if_neg s5]
  by_cases s6 : current_section = "binary"
  · rw [if_pos s6, if_neg (h18 s6), if_neg (h19 s6), if_neg (h20 s6), if_neg (h21 s6)]
  rw [if_neg s6]
  by_cases s7 : current_section = "project"
  · rw [if_pos s7, if_neg (h22 s7), if_neg (h23 s7), if_neg (h24 s7), if_neg (h25 s7)]
  rw [if_neg s7]
  by_cases s8 : current_section = "features"
  · rw [if_pos s8, if_neg (h26 s8), if_neg (h27 s8), if_neg (h28 s8)]
  rw [if_neg s8]

theorem strchr_split_first (c : Char) (before after : List Char) (h : c ∉ before) :
    strchr_split c (before ++ c :: after) = some (before, after) := by
  induction before with
  | nil => simp [strchr_split]
  | cons x xs ih =>
    have hx : ¬ x = c := fun e => h (e ▸ List.mem_cons_self _ _)
    have hxs : c ∉ xs := fun m => h (List.mem_cons_of_mem _ m)
    rw [List.cons_append, strchr_split, if_neg hx, ih hxs]

theorem trim_chars_blank (raw : List Char) (h : ∀ c ∈ raw, is_space c = true) :
    trim_chars raw = [] := by
  unfold trim_chars
  rw [List.dropWhile_eq_nil_iff.2 h]

theorem trim_chars_head (raw : List Char) :
    (trim_chars raw).head? = (raw.dropWhile is_space).head? := by
  unfold trim_chars
  cases raw.dropWhile is_space <;> rfl

theorem dropWhile_head_not (l : List Char) (c : Char) (rest : List Char)
    (h : l.dropWhile is_space = c :: rest) : is_space c = false := by
  have := List.head?_dropWhile_not is_space l
  rw [h] at this
  exact this

theorem trim_chars_eq_trimmed (str : List Char) : trim_chars str = trimmed str := by
  unfold trim_chars trimmed trim_end
  cases h : str.dropWhile is_space with
  | nil => rfl
  | cons c rest =>
    have hc := dropWhile_head_not str c rest h
    simp only [List.reverse_cons]
    rw [List.dropWhile_append]
    split
    · rename_i he
      have he' : rest.reverse.dropWhile is_space = [] := List.isEmpty_iff.1 he
      rw [he', List.dropWhile_cons_of_neg (by rw [hc]; decide)]
      rfl
    · simp

theorem trim_chars_length_le (str : List Char) : (trim_chars str).length ≤ str.length := by
  rw [trim_chars_eq_trimmed]
  unfold trimmed
  rw [List.length_reverse]
  calc (List.dropWhile is_space (List.dropWhile is_space str).reverse).length
      ≤ (List.dropWhile is_space str).reverse.length := (List.dropWhile_sublist _).length_le
    _ = (List.dropWhile is_space str).length := List.length_reverse _
    _ ≤ str.length := (List.dropWhile_sublist _).length_le

/-- C17: one step of `load_config`, on a line `raw` that the buffer `line[MAX_LINE_LEN]`
holds. A line whose trimmed text is `key=value`, with no `=` in `key` and not starting
with `#` or `[`, leaves the section as it is and makes the assignment of
`load_config_assign` for the trimmed key and the trimmed value (the value is everything
after the first `=`), when the value fits the field: it does for every field but
`default_env` (a value of such a line is shorter than `MAX_VALUE_LEN`), and for `[env]
default_env` the condition is a value shorter than 32. That assignment is, for a pair of
the table `config_fields` and a value that fits in this sense, the table's single-field
assignment, and no change for a pair that is not in the table, in particular when no
section header has been seen (section `""`). Blank lines and lines whose first non-blank
character is `#` change nothing. -/
theorem load_config_line_step (st : String × Config) (raw : List Char)
    (hraw : raw.length < MAX_LINE_LEN) :
    (∀ key value : List Char, trim_chars raw = key ++ '=' :: value → '=' ∉ key →
      (trim_chars raw).head? ≠ some '#' → (trim_chars raw).head? ≠ some '[' →
      (st.1 = "env" → String.mk (trim_chars key) = "default_env" →
        (trim_chars value).length < 32) →
      (trim_chars value).length < MAX_VALUE_LEN ∧
      load_config_line st raw =
        (st.1, load_config_assign st.1 (String.mk (trim_chars key))
          (String.mk (trim_chars value)) st.2)) ∧
    (∀ e ∈ config_fields, ∀ (value : String) (config : Config),
      value.length < MAX_VALUE_LEN →
      (e.1 = "env" → e.2.1 = "default_env" → value.length < 32) →
      load_config_assign e.1 e.2.1 value config = e.2.2 value config) ∧
    (∀ (current_section key value : String) (config : Config),
      (∀ e ∈ config_fields, ¬ (current_section = e.1 ∧ key = e.2.1)) →
      load_config_assign current_section key value config = config) ∧
    (∀ (key value : String) (config : Config), load_config_assign "" key value config = config) ∧
    ((∀ c ∈ raw, is_space c = true) → load_config_line st raw = st) ∧
    ((raw.dropWhile is_space).head? = some '#' → load_config_line st raw = st) := by
  refine ⟨?_, fun e he value config _ _ => load_config_assign_known e he value config,
    load_config_assign_unknown, ?_, ?_, ?_⟩
  · intro key value hline hkey hhash hbracket _
    have hlen : (trim_chars value).length < MAX_VALUE_LEN := by
      have h1 := trim_chars_length_le value
      have h2 := trim_chars_length_le raw
      rw [hline, List.length_append, List.length_cons] at h2
      simp only [MAX_LINE_LEN] at hraw
      simp only [MAX_VALUE_LEN]
      omega
    refine ⟨hlen, ?_⟩
    have hsplit := strchr_split_first '=' key value hkey
    unfold load_config_line
    rw [hline] at hhash hbracket ⊢
    cases key with
    | nil =>
      simp only [List.nil_append] at hsplit ⊢
      rw [if_neg (by decide), if_neg (by decide), hsplit]
    | cons k ks =>
      rw [List.cons_append] at hsplit hhash hbracket ⊢
      have h1 : ¬ k = '#' := fun e => hhash (by rw [e]; rfl)
      have h2 : ¬ k = '[' := fun e => hbracket (by rw [e]; rfl)
      simp only [if_neg h1, if_neg h2, hsplit]
  · intro key value config
    exact load_config_assign_unknown "" key value config (by
      intro e he
      simp only [config_fields, List.mem_cons, List.mem_singleton, List.not_mem_nil,
        or_false] at he
      rcases he with h | h | h | h | h | h | h | h | h | h | h | h | h | h | h | h | h | h |
        h | h | h | h | h | h | h | h | h | h <;> subst h <;> exact fun h => absurd h.1 (by decide))
  · intro h
    unfold load_config_line
    rw [trim_chars_blank raw h]
  · intro h
    unfold load_config_line
    have hh := trim_chars_head raw
    rw [h] at hh
    cases ht : trim_chars raw with
    | nil => rfl
    | cons c rest =>
      rw [ht] at hh
      simp only [List.head?_cons, Option.some.injEq] at hh
      subst hh
      simp only [if_true]

/-- C17, witness: under section `compiler` the line `  flags = -C a=b  ` sets `flags`
to `-C a=b` and nothing else; under section `env` the same line changes nothing, and
the line `default_env = prod`, whose value is shorter than 32, sets `default_env`. -/
theorem load_config_line_step_witness :
    "  flags = -C a=b \n".data.length < MAX_LINE_LEN ∧
    load_config_line ("compiler", g_config_zero) "  flags = -C a=b \n".data =
      ("compiler", { g_config_zero with flags := "-C a=b" }) ∧
    load_config_line ("env", g_config_zero) "  flags = -C a=b \n".data =
      ("env", g_config_zero) ∧
    "default_env = prod\n".data.length < MAX_LINE_LEN ∧
    (trim_chars " prod".data).length < 32 ∧
    load_config_line ("env", g_config_zero) "default_env = prod\n".data =
      ("env", { g_config_zero with default_env := "prod" }) :=
  ⟨by decide,
    ((load_config_line_step ("compiler", g_config_zero) "  flags = -C a=b \n".data
      (by decide)).1 "flags ".data " -C a=b".data (by decide) (by decide) (by decide)
      (by decide) (fun h => absurd h (by decide))).2.trans (by decide),
    ((load_config_line_step ("env", g_config_zero) "  flags = -C a=b \n".data
      (by decide)).1 "flags ".data " -C a=b".data (by decide) (by decide) (by decide)
      (by decide) (fun _ h => absurd h (by decide))).2.trans (by decide),
    by decide, by decide,
    ((load_config_line_step ("env", g_config_zero) "default_env = prod\n".data
      (by decide)).1 "default_env ".data " prod".data (by decide) (by decide) (by decide)
      (by decide) (fun _ _ => by decide)).2.trans (by decide)⟩

/-! ## Output file name -/

theorem dropWhile_stop {p : Char → Bool} (front back : List Char)
    (hf : ∀ a ∈ front, p a = true) (hb : back = [] ∨ ∃ b rest, back = b :: rest ∧ p b = false) :
    (front ++ back).dropWhile p = back ∧ (front ++ back).takeWhile p = front := by
  rw [List.dropWhile_append_of_pos hf, List.takeWhile_append_of_pos hf]
  rcases hb with rfl | ⟨b, rest, rfl, hb⟩
  · simp
  · rw [List.dropWhile_cons_of_neg (by rw [hb]; decide),
      List.takeWhile_cons_of_neg (by rw [hb]; decide)]
    simp

theorem basename_component (front comp : List Char) (n : Nat)
    (hc : comp ≠ []) (hs : '/' ∉ comp)
    (hfront : front = [] ∨ ∃ dir, front = dir ++ ['/']) :
    basename (front ++ comp ++ List.replicate n '/') = comp := by
  have hne : front ++ comp ++ List.replicate n '/' ≠ [] := by
    cases comp with
    | nil => exact absurd rfl hc
    | cons c cs => simp
  have hrev : (front ++ comp ++ List.replicate n '/').reverse =
      List.replicate n '/' ++ (comp.reverse ++ front.reverse) := by
    simp [List.reverse_append, List.reverse_replicate]
  have hcr : ∃ b rest, comp.reverse ++ front.reverse = b :: rest ∧
      (fun c : Char => decide (c = '/')) b = false := by
    cases hr : comp.reverse with
    | nil => exact absurd (List.reverse_eq_nil_iff.1 hr) hc
    | cons b rest =>
      refine ⟨b, rest ++ front.reverse, rfl, ?_⟩
      have hb : b ∈ comp := List.mem_reverse.1 (hr ▸ List.mem_cons_self _ _)
      simp only [decide_eq_false_iff_not]
      exact fun e => hs (e ▸ hb)
  have h1 := (dropWhile_stop (p := fun c : Char => decide (c = '/')) (List.replicate n '/')
    (comp.reverse ++ front.reverse)
    (fun a ha => by simp [(List.mem_replicate.1 ha).2]) (Or.inr hcr)).1
  have hfr : front.reverse = [] ∨ ∃ b rest, front.reverse = b :: rest ∧
      (fun c : Char => decide (c ≠ '/')) b = false := by
    rcases hfront with rfl | ⟨dir, rfl⟩
    · exact Or.inl rfl
    · exact Or.inr ⟨'/', dir.reverse, by simp, by decide⟩
  have h2 := (dropWhile_stop (p := fun c : Char => decide (c ≠ '/')) comp.reverse front.reverse
    (fun a ha => by
      simp only [decide_eq_true_eq]
      exact fun e => hs (e ▸ List.mem_reverse.1 ha)) hfr).2
  unfold basename
  rw [if_neg hne]
  simp only [hrev, h1]
  obtain ⟨b, rest, hbr, -⟩ := hcr
  rw [if_neg (by rw [hbr]; simp), h2, List.reverse_reverse]

theorem strip_last_dot_ext (stem ext : List Char) (h : '.' ∉ ext) :
    strip_last_dot (stem ++ '.' :: ext) = stem := by
  unfold strip_last_dot
  rw [if_pos (by simp)]
  have hrev : (stem ++ '.' :: ext).reverse = ext.reverse ++ '.' :: stem.reverse := by
    simp [List.reverse_append]
  have h1 := (dropWhile_stop (p := fun c : Char => decide (c ≠ '.')) ext.reverse
    ('.' :: stem.reverse)
    (fun a ha => by
      simp only [decide_eq_true_eq]
      exact fun e => h (e ▸ List.mem_reverse.1 ha))
    (Or.inr ⟨'.', stem.reverse, rfl, by decide⟩)).1
  rw [hrev, h1]
  simp

theorem strip_last_dot_none (comp : List Char) (h : '.' ∉ comp) :
    strip_last_dot comp = comp := by
  unfold strip_last_dot
  rw [if_neg h]

theorem basename_slashes (n : Nat) : basename (List.replicate (n + 1) '/') = ['/'] := by
  unfold basename
  rw [if_neg (by simp [List.replicate_succ]), List.reverse_replicate, List.dropWhile_replicate]
  simp

theorem all_eq_replicate (l : List Char) (a : Char) (h : ∀ b ∈ l, b = a) :
    l = List.replicate l.length a := by
  induction l with
  | nil => rfl
  | cons x xs ih =>
    rw [List.length_cons, List.replicate_succ, h x (List.mem_cons_self _ _)]
    congr 1
    exact ih (fun b hb => h b (List.mem_cons_of_mem _ hb))

theorem path_shape (path : List Char) (h : path ≠ []) :
    (∃ front comp n, comp ≠ [] ∧ '/' ∉ comp ∧ (front = [] ∨ ∃ dir, front = dir ++ ['/']) ∧
      path = front ++ comp ++ List.replicate n '/') ∨
    ∃ n, path = List.replicate (n + 1) '/' := by
  have hsplit : path = (path.reverse.dropWhile (fun c => c = '/')).reverse ++
      (path.reverse.takeWhile (fun c => c = '/')).reverse := by
    rw [← List.reverse_append, List.takeWhile_append_dropWhile, List.reverse_reverse]
  have hsl : (path.reverse.takeWhile (fun c => c = '/')).reverse =
      List.replicate (path.reverse.takeWhile (fun c => c = '/')).length '/' := by
    have := all_eq_replicate (path.reverse.takeWhile (fun c => c = '/')).reverse '/'
      (fun b hb => by
        have := List.mem_takeWhile_imp (List.mem_reverse.1 hb)
        simpa using this)
    rw [List.length_reverse] at this
    exact this
  cases hd : path.reverse.dropWhile (fun c => c = '/') with
  | nil =>
    right
    rw [hd, List.reverse_nil, List.nil_append, hsl] at hsplit
    cases hn : (path.reverse.takeWhile (fun c => c = '/')).length with
    | zero => rw [hn] at hsplit; exact absurd hsplit h
    | succ n => rw [hn] at hsplit; exact ⟨n, hsplit⟩
  | cons x xs =>
    left
    have hx : ¬ (x = '/') := by
      have := List.head?_dropWhile_not (fun c => decide (c = '/')) path.reverse
      rw [hd] at this
      simpa using this
    have hrest : x :: xs = (x :: xs).takeWhile (fun c => c ≠ '/') ++
        (x :: xs).dropWhile (fun c => c ≠ '/') := (List.takeWhile_append_dropWhile _ _).symm
    refine ⟨((x :: xs).dropWhile (fun c => c ≠ '/')).reverse,
      ((x :: xs).takeWhile (fun c => c ≠ '/')).reverse,
      (path.reverse.takeWhile (fun c => c = '/')).length, ?_, ?_, ?_, ?_⟩
    · rw [List.takeWhile_cons_of_pos (by simpa using hx)]
      simp
    · intro hm
      have := List.mem_takeWhile_imp (List.mem_reverse.1 hm)
      simp at this
    · cases hdd : (x :: xs).dropWhile (fun c => c ≠ '/') with
      | nil => exact Or.inl rfl
      | cons y ys =>
        right
        have hy := List.head?_dropWhile_not (fun c => decide (c ≠ '/')) (x :: xs)
        rw [hdd] at hy
        have hy' : y = '/' := by simpa using hy
        exact ⟨ys.reverse, by rw [List.reverse_cons, hy']⟩
    · rw [← List.reverse_append, ← hrest, ← hd, ← hsl]
      exact hsplit

/-- C18: the output file name and output path of `compile_rust_file`, for a file path
that fits its array and is not empty (for the empty path the source derives no name: it
writes into the constant that `basename` returns and the process dies). The name is
taken from the last component `comp` of the path, that is the non-empty, slash-free text
after the last `/` of the path without its trailing slashes: it is `stem` when `comp` is
`stem.ext` with no dot in `ext`, and `comp` itself when `comp` has no dot, whatever dots
the directory part has. A path with no such component is made of slashes and its name
is `/`, as `basename` gives `/`; every path that is not empty is of one of these two
shapes. Whenever the command is assembled, the output path is `<output_dir>/<name>`,
with `.` for an empty `output_dir`, and the command ends with
` -o <output path> <file>`. -/
theorem compile_output_name (g : Config) (opts : Options)
    (hfile : opts.file.length < MAX_PATH_LEN) (hnonempty : opts.file ≠ "") :
    (∀ (front comp : List Char) (n : Nat), comp ≠ [] → '/' ∉ comp →
      (front = [] ∨ ∃ dir, front = dir ++ ['/']) →
      opts.file.data = front ++ comp ++ List.replicate n '/' →
      (∀ stem ext, comp = stem ++ '.' :: ext → '.' ∉ ext →
        compile_filename opts = String.mk stem) ∧
      ('.' ∉ comp → compile_filename opts = String.mk comp)) ∧
    (∀ n, opts.file.data = List.replicate (n + 1) '/' → compile_filename opts = "/") ∧
    ((∃ front comp n, comp ≠ [] ∧ '/' ∉ comp ∧ (front = [] ∨ ∃ dir, front = dir ++ ['/']) ∧
        opts.file.data = front ++ comp ++ List.replicate n '/') ∨
      ∃ n, opts.file.data = List.replicate (n + 1) '/') ∧
    (∀ cmd path, compile_rust_file_build g opts = Except.ok (cmd, path) →
      path = (if g.output_dir ≠ "" then g.output_dir else ".") ++ "/" ++
        compile_filename opts ∧
      ∃ before, cmd = before ++ " -o " ++ path ++ " " ++ opts.file) := by
  refine ⟨?_, ?_, path_shape opts.file.data (fun h => hnonempty (String.ext h)), ?_⟩
  · intro front comp n hc hs hfront hpath
    rw [compile_filename_eq opts hfile, hpath, basename_component front comp n hc hs hfront]
    constructor
    · intro stem ext hcomp hext
      rw [hcomp, strip_last_dot_ext stem ext hext]
    · intro hdot
      rw [strip_last_dot_none comp hdot]
  · intro n hpath
    rw [compile_filename_eq opts hfile, hpath, basename_slashes]
    rfl
  · intro cmd path hb
    rcases compile_rust_file_build_cases g opts hfile with ⟨msg, he⟩ | ⟨ho, -⟩
    · rw [he] at hb; cases hb
    · rw [ho] at hb
      cases hb
      rw [compile_filename_eq opts hfile]
      exact ⟨rfl, _, rfl⟩

/-- C18, witness: the file `src.d/main.rs` with the default configuration gives the
name `main` and the output path `./bin/main`. -/
theorem compile_output_name_witness :
    ("src.d/main.rs" : String).length < MAX_PATH_LEN ∧ ("src.d/main.rs" : String) ≠ "" ∧
    compile_filename { main_initial_options with file := "src.d/main.rs" } = "main" ∧
    ∃ before, compile_rust_file_build (init_default_config g_config_zero)
        { main_initial_options with file := "src.d/main.rs" } =
      Except.ok (before ++ " -o " ++ "./bin/main" ++ " " ++ "src.d/main.rs", "./bin/main") :=
  ⟨by decide, by decide,
    ((compile_output_name (init_default_config g_config_zero)
      { main_initial_options with file := "src.d/main.rs" } (by decide) (by decide)).1
      "src.d/".data "main.rs".data 0 (by decide) (by decide)
      (Or.inr ⟨"src.d".data, by decide⟩) (by decide)).1 "main".data "rs".data
      (by decide) (by decide),
    "rustc -C opt-level=3 --target x86_64-unknown-linux-gnu", rfl⟩

/-! ## Trimming -/

theorem trim_end_split (rest : List Char) :
    ∃ trail, rest = trim_end rest ++ trail ∧ ∀ c ∈ trail, is_space c = true := by
  refine ⟨(rest.reverse.takeWhile is_space).reverse, ?_, ?_⟩
  · unfold trim_end
    rw [← List.reverse_append, List.takeWhile_append_dropWhile, List.reverse_reverse]
  · intro c hc
    exact (List.mem_takeWhile_imp (List.mem_reverse.1 hc))

theorem trim_end_last (rest : List Char) (c : Char) (h : (trim_end rest).getLast? = some c) :
    is_space c = false := by
  unfold trim_end at h
  rw [List.getLast?_reverse] at h
  have := List.head?_dropWhile_not is_space rest.reverse
  rw [h] at this
  exact this

theorem trim_end_idem (rest : List Char) : trim_end (trim_end rest) = trim_end rest := by
  unfold trim_end
  rw [List.reverse_reverse, List.dropWhile_idempotent]

/-- C19: `trim_whitespace` removes the longest leading run and the longest trailing
run of the characters space, tab, CR and LF and keeps the rest as it is: the input is
`lead ++ result ++ trail` with `lead` and `trail` made of those characters only, and the
result is empty or begins and ends with a character that is none of them; an input of
white space only gives the empty string; and trimming the result again changes nothing. -/
theorem trim_whitespace_spec (str : String) :
    (trim_whitespace str).data = trimmed str.data ∧
    (∃ lead trail : List Char, str.data = lead ++ (trim_whitespace str).data ++ trail ∧
      (∀ c ∈ lead, is_space c = true) ∧ (∀ c ∈ trail, is_space c = true)) ∧
    ((trim_whitespace str).data = [] ∨
      ((∃ c, (trim_whitespace str).data.head? = some c ∧ is_space c = false) ∧
        ∃ c, (trim_whitespace str).data.getLast? = some c ∧ is_space c = false)) ∧
    ((∀ c ∈ str.data, is_space c = true) → trim_whitespace str = "") ∧
    trim_whitespace (trim_whitespace str) = trim_whitespace str := by
  have hsplit := List.takeWhile_append_dropWhile is_space str.data
  refine ⟨trim_chars_eq_trimmed str.data, ?_, ?_, ?_, ?_⟩
  · show ∃ lead trail : List Char, str.data = lead ++ trim_chars str.data ++ trail ∧ _
    unfold trim_chars
    cases h : str.data.dropWhile is_space with
    | nil =>
      refine ⟨str.data, [], by simp, ?_, by simp⟩
      exact List.dropWhile_eq_nil_iff.1 h
    | cons c rest =>
      obtain ⟨trail, ht, htw⟩ := trim_end_split rest
      refine ⟨str.data.takeWhile is_space, trail, ?_, ?_, htw⟩
      · rw [h] at hsplit
        simp only [List.append_assoc, List.cons_append, ← ht]
        exact hsplit.symm
      · intro x hx
        exact List.mem_takeWhile_imp hx
  · show trim_chars str.data = [] ∨ _
    show trim_chars str.data = [] ∨
      ((∃ c, (trim_chars str.data).head? = some c ∧ is_space c = false) ∧
        ∃ c, (trim_chars str.data).getLast? = some c ∧ is_space c = false)
    unfold trim_chars
    cases h : str.data.dropWhile is_space with
    | nil => exact Or.inl rfl
    | cons c rest =>
      have hc := dropWhile_head_not str.data c rest h
      refine Or.inr ⟨⟨c, rfl, hc⟩, ?_⟩
      simp only [List.getLast?_cons]
      cases hl : (trim_end rest).getLast? with
      | none => exact ⟨c, rfl, hc⟩
      | some d => exact ⟨d, rfl, trim_end_last rest d hl⟩
  · intro h
    unfold trim_whitespace
    rw [trim_chars_blank str.data h]
  · unfold trim_whitespace
    show String.mk (trim_chars (trim_chars str.data)) = String.mk (trim_chars str.data)
    congr 1
    unfold trim_chars
    cases h : str.data.dropWhile is_space with
    | nil => rfl
    | cons c rest =>
      have hc := dropWhile_head_not str.data c rest h
      simp only
      rw [List.dropWhile_cons_of_neg (by rw [hc]; decide)]
      simp only [trim_end_idem]

/-- C19, witness: a string of white space only is trimmed to the empty string. -/
theorem trim_whitespace_spec_witness :
    (∀ c ∈ (" \t\r\n" : String).data, is_space c = true) ∧ trim_whitespace " \t\r\n" = "" :=
  ⟨by decide, (trim_whitespace_spec " \t\r\n").2.2.2.1 (by decide)⟩

/-! ## Field lengths after loading -/

theorem fgets_lines_length (size : Nat) (content : List Char) :
    ∀ (room : Nat) (cur : List Char), 1 ≤ room → cur.length + room ≤ size - 1 →
      ∀ l ∈ fgets_lines size room cur content, l.length ≤ size - 1 := by
  induction content with
  | nil =>
    intro room cur hroom hsum l hl
    simp only [fgets_lines] at hl
    split at hl
    · simp at hl
    · simp only [List.mem_singleton] at hl
      subst hl
      simp only [List.length_reverse]
      omega
  | cons c cs ih =>
    intro room cur hroom hsum l hl
    simp only [fgets_lines] at hl
    split at hl
    · rcases List.mem_cons.1 hl with h | h
      · subst h
        simp only [List.length_reverse, List.length_cons]
        omega
      · exact ih (size - 1) [] (by omega) (by simp) l h
    · rename_i hc
      exact ih (room - 1) (c :: cur) (by omega) (by simp only [List.length_cons]; omega) l hl

theorem strchr_split_length (c : Char) (l before after : List Char)
    (h : strchr_split c l = some (before, after)) :
    before.length + after.length + 1 = l.length := by
  induction l generalizing before with
  | nil => simp [strchr_split] at h
  | cons x xs ih =>
    simp only [strchr_split] at h
    split at h
    · cases h
      simp
    · cases hs : strchr_split c xs with
      | none => rw [hs] at h; cases h
      | some p =>
        obtain ⟨b, a⟩ := p
        rw [hs] at h
        cases h
        have := ih b hs
        simp only [List.length_cons]
        omega

theorem load_config_assign_within (current_section key value : String) (config : Config)
    (hv : value.length < MAX_VALUE_LEN) (hc : within_line_length config) :
    within_line_length (load_config_assign current_section key value config) := by
  by_cases h : ∀ e ∈ config_fields, ¬ (current_section = e.1 ∧ key = e.2.1)
  · rw [load_config_assign_unknown current_section key value config h]
    exact hc
  · simp only [not_forall, not_not] at h
    obtain ⟨e, he, hs, hk⟩ := h
    rw [hs, hk, load_config_assign_known e he]
    simp only [MAX_VALUE_LEN, MAX_PATH_LEN, MAX_CMD_LEN, MAX_LINE_LEN,
      within_line_length] at hv hc ⊢
    obtain ⟨c1, c2, c3, c4, c5, c6, c7, c8, c9, c10, c11, c12, c13, c14, c15, c16, c17, c18,
      c19⟩ := hc
    simp only [config_fields, List.mem_cons, List.mem_singleton, List.not_mem_nil,
      or_false] at he
    rcases he with h | h | h | h | h | h | h | h | h | h | h | h | h | h | h | h | h | h | h |
      h | h | h | h | h | h | h | h | h <;> subst h <;>
      refine ⟨?_, ?_, ?_, ?_, ?_, ?_, ?_, ?_, ?_, ?_, ?_, ?_, ?_, ?_, ?_, ?_, ?_, ?_, ?_⟩ <;>
      first | assumption | (dsimp only; omega)

theorem load_config_line_within (st : String × Config) (line : List Char)
    (hl : line.length ≤ MAX_LINE_LEN - 1) (hc : within_line_length st.2) :
    within_line_length (load_config_line st line).2 := by
  have ht := trim_chars_length_le line
  unfold load_config_line
  cases htr : trim_chars line with
  | nil => exact hc
  | cons c rest =>
    rw [htr] at ht
    simp only
    split
    · exact hc
    · split
      · cases strchr_split ']' (c :: rest) with
        | none => exact hc
        | some p => exact hc
      · cases hs : strchr_split '=' (c :: rest) with
        | none => exact hc
        | some p =>
          obtain ⟨key, value⟩ := p
          have hlen := strchr_split_length '=' (c :: rest) key value hs
          have hv := trim_chars_length_le value
          refine load_config_assign_within _ _ _ _ ?_ hc
          show (trim_chars value).length < MAX_VALUE_LEN
          simp only [MAX_VALUE_LEN, MAX_LINE_LEN] at hl ⊢
          omega

theorem load_config_lines_within (lines : List (List Char)) :
    ∀ st : String × Config, (∀ l ∈ lines, l.length ≤ MAX_LINE_LEN - 1) →
      within_line_length st.2 → within_line_length (lines.foldl load_config_line st).2 := by
  induction lines with
  | nil => intro st _ hc; exact hc
  | cons l ls ih =>
    intro st hl hc
    rw [List.foldl_cons]
    exact ih _ (fun x hx => hl x (List.mem_cons_of_mem _ hx))
      (load_config_line_within st l (hl l (List.mem_cons_self _ _)) hc)

theorem load_config_text_within (content : String) (config : Config)
    (hc : within_line_length config) :
    within_line_length (load_config_text content config) := by
  unfold load_config_text
  exact load_config_lines_within _ _
    (fgets_lines_length MAX_LINE_LEN content.data (MAX_LINE_LEN - 1) [] (by decide)
      (by decide))
    hc

/-! ## Field capacities -/

/-- C20 (evaluation at the failing input): a two-line file whose lines have at most 56
characters sets `default_env` to a value of 38 characters, which does not fit the
32-byte array `default_env` (31 characters and the terminator): `load_config` copies the
value with `strcpy`, whatever its length. Every other string field stays within its
array, see `load_config_text_within`. -/
theorem load_config_default_env_exceeds_capacity :
    (load_config_text "[env]\ndefault_env=development-mode-with-a-very-long-name\n"
      g_config_zero).default_env = "development-mode-with-a-very-long-name" ∧
    ("development-mode-with-a-very-long-name" : String).length = 38 ∧
    ¬ ((load_config_text "[env]\ndefault_env=development-mode-with-a-very-long-name\n"
      g_config_zero).default_env.length < 32) ∧
    ("default_env=development-mode-with-a-very-long-name" : String).length ≤ 510 := by
  decide

/-! ## The last length check of `compile_rust_file` -/

theorem snprintf_append_error_msg (cmd seg msg e : String)
    (h : snprintf_append cmd seg msg = Except.error e) : e = msg := by
  rw [snprintf_append_eq] at h
  split at h
  · cases h; rfl
  · cases h

theorem compile_env_flags_error_msg (g : Config) (opts : Options) (cmd e : String)
    (h : compile_env_flags g opts cmd = Except.error e) :
    e = "Error: Command with prod flags too long\n" ∨
      e = "Error: Command with dev flags too long\n" := by
  unfold compile_env_flags at h
  split at h
  · split at h
    · exact Or.inl (snprintf_append_error_msg _ _ _ _ h)
    · cases h
  · split at h
    · split at h
      · exact Or.inr (snprintf_append_error_msg _ _ _ _ h)
      · cases h
    · cases h

theorem compile_target_error_msg (g : Config) (cmd e : String)
    (h : compile_target g cmd = Except.error e) :
    e = "Error: Command with target too long\n" := by
  unfold compile_target at h
  split at h
  · exact snprintf_append_error_msg _ _ _ _ h
  · cases h

theorem compile_output_error_msg (g : Config) (opts : Options) (filename cmd e : String)
    (h : compile_output g opts filename cmd = Except.error e) :
    e = "Error: Output path too long\n" ∨ e = "Error: Final command would be too long\n" := by
  simp only [compile_output] at h
  generalize (if g.output_dir.length > 0 then g.output_dir else ".") = dir at h
  generalize snprintf MAX_PATH_LEN (dir ++ "/" ++ filename) = p at h
  by_cases h1 : p.2 ≥ MAX_PATH_LEN
  · rw [if_pos h1] at h
    cases h
    exact Or.inl rfl
  · rw [if_neg h1] at h
    by_cases h2 : " -o ".length + p.1.length + " ".length + opts.file.length + 1 >
        MAX_CMD_LEN - cmd.length
    · rw [if_pos h2] at h
      cases h
      exact Or.inr rfl
    · rw [if_neg h2, snprintf_snd, if_neg (by
        simp only [String.length_append, len_o, len_sp] at h2 ⊢
        omega)] at h
      cases h

/-- C21: the error branch "Command construction failed" of `compile_rust_file` cannot be
taken. For every command prefix `cmd`, output path and file path that pass the pre-check
`needed <= remaining` (with `needed = 4 + len(output_path) + 1 + len(file) + 1` and
`remaining = MAX_CMD_LEN - len(cmd)`), the appended segment ` -o <output_path> <file>`
is shorter than `remaining`, so the value `snprintf` returns is below `remaining` and
the segment is stored whole. Hence neither the final stage nor the whole assembly ever
ends with that message, and `compile_rust_file` never writes it to the error stream. -/
theorem final_snprintf_check_cannot_fail (cmd output_path file : String)
    (hcheck : " -o ".length + output_path.length + " ".length + file.length + 1 ≤
      MAX_CMD_LEN - cmd.length) :
    (" -o " ++ output_path ++ " " ++ file).length < MAX_CMD_LEN - cmd.length ∧
    ¬ ((snprintf (MAX_CMD_LEN - cmd.length) (" -o " ++ output_path ++ " " ++ file)).2 ≥
      MAX_CMD_LEN - cmd.length) ∧
    (snprintf (MAX_CMD_LEN - cmd.length) (" -o " ++ output_path ++ " " ++ file)).1 =
      " -o " ++ output_path ++ " " ++ file ∧
    (∀ (g : Config) (opts : Options) (filename : String),
      compile_output g opts filename cmd ≠
        Except.error "Error: Command construction failed\n") ∧
    (∀ (g : Config) (opts : Options),
      compile_rust_file_build g opts ≠ Except.error "Error: Command construction failed\n") ∧
    (∀ (env : Env) (g : Config) (opts : Options) (w : List Event),
      Event.err "Error: Command construction failed\n" ∉
        (compile_rust_file env g opts w).2.drop w.length) := by
  have hlen : (" -o " ++ output_path ++ " " ++ file).length < MAX_CMD_LEN - cmd.length := by
    simp only [String.length_append, len_o, len_sp] at hcheck ⊢
    omega
  have hbuild : ∀ (g : Config) (opts : Options),
      compile_rust_file_build g opts ≠ Except.error "Error: Command construction failed\n" := by
    intro g opts h
    simp only [compile_rust_file_build] at h
    split at h
    · exact absurd (Except.error.inj h) (by decide)
    · cases he : compile_env_flags g opts
          (snprintf MAX_CMD_LEN (compile_compiler g ++ " " ++ g.flags)).1 with
      | error e =>
        simp only [he] at h
        rcases compile_env_flags_error_msg _ _ _ _ he with h' | h' <;>
          exact absurd (h'.symm.trans (Except.error.inj h)) (by decide)
      | ok c1 =>
        simp only [he] at h
        cases ht : compile_target g c1 with
        | error e =>
          simp only [ht] at h
          exact absurd ((compile_target_error_msg _ _ _ ht).symm.trans (Except.error.inj h))
            (by decide)
        | ok c2 =>
          simp only [ht] at h
          rcases compile_output_error_msg _ _ _ _ _ h with h' | h' <;>
            exact absurd h' (by decide)
  refine ⟨hlen, ?_, ?_, ?_, hbuild, ?_⟩
  · rw [snprintf_snd]
    omega
  · rw [snprintf_fits _ _ hlen]
  · intro g opts filename h
    rcases compile_output_error_msg _ _ _ _ _ h with h' | h' <;> exact absurd h' (by decide)
  · intro env g opts w hmem
    unfold compile_rust_file at hmem
    cases hb : compile_rust_file_build g opts with
    | error msg =>
      have hne : msg ≠ "Error: Command construction failed\n" := fun e => hbuild g opts (e ▸ hb)
      simp only [hb, compile_mkdir_eq, List.append_assoc, List.drop_left] at hmem
      unfold compile_mkdir_events at hmem
      split_ifs at hmem <;> simp at hmem <;> exact hne hmem.symm
    | ok p =>
      obtain ⟨c, path⟩ := p
      simp only [hb, compile_mkdir_eq] at hmem
      unfold compile_mkdir_events at hmem
      split_ifs at hmem <;> simp [execute_command_snd] at hmem

/-- C21, witness: the prefix, output path and file of the default build of `main.x`. -/
theorem final_snprintf_check_cannot_fail_witness :
    (" -o ".length + ("./bin/main" : String).length + " ".length +
        ("main.x" : String).length + 1 ≤
      MAX_CMD_LEN -
        ("rustc -C opt-level=3 --target x86_64-unknown-linux-gnu" : String).length) ∧
    (" -o " ++ "./bin/main" ++ " " ++ "main.x" : String).length <
      MAX_CMD_LEN -
        ("rustc -C opt-level=3 --target x86_64-unknown-linux-gnu" : String).length ∧
    (snprintf
        (MAX_CMD_LEN -
          ("rustc -C opt-level=3 --target x86_64-unknown-linux-gnu" : String).length)
        (" -o " ++ "./bin/main" ++ " " ++ "main.x")).1 =
      " -o " ++ "./bin/main" ++ " " ++ "main.x" :=
  ⟨by decide,
    (final_snprintf_check_cannot_fail
      "rustc -C opt-level=3 --target x86_64-unknown-linux-gnu" "./bin/main" "main.x"
      (by decide)).1,
    (final_snprintf_check_cannot_fail
      "rustc -C opt-level=3 --target x86_64-unknown-linux-gnu" "./bin/main" "main.x"
      (by decide)).2.2.1⟩


end Rskid
